import Mathlib

/-! # Modal dialogs of `selfdrive/ui/qt/widgets/input.cc`

A shallow embedding of the dialog classes of `input.cc` (`QDialogBase`,
`InputDialog`, `ConfirmationDialog`, `MultiOptionDialog`) and of the part of
the widget toolkit their control flow goes through.

* A widget is a record of the state the code reads or writes. A `QString` is
  the list of its code units, an `int` an integer (no operation of the file
  can overflow), an object its identity.
* A signal emitted by a dialog is appended to a log kept in its record.
* The `connect` calls of a constructor become the `dispatch` function of the
  class: the slot run for each user-interface event. Slots run to completion,
  one event at a time.
* `exec` runs the event loop over a list of events until the dialog is
  closed; it has no result when the events run out with the dialog open.
* Behaviour of the toolkit that the source does not fix (how a line edit
  edits its text, what a validator answers, what the base-class event filter
  returns) is a parameter, collected in `Toolkit`; the theorems hold for
  every toolkit. `plainToolkit` is one, used to run the dialogs on concrete
  inputs.
* The buttons of `MultiOptionDialog` are in an exclusive `QButtonGroup`:
  checking a button of the group, by a click or by adding a checked button,
  unchecks the button that was checked, which emits `toggled(false)`.
* `QLineEdit::setText` cuts the text at `maxLength()`, 32767 for a new line
  edit.
* `tr` returns its source text.
-/

namespace InputCc

/-! ## Strings -/

/-- A `QString`: the sequence of its code units. -/
abbrev QString := List Char

/-- A `QStringList`. -/
abbrev QStringList := List QString

/-- Models `tr(sourceText)` with no translation installed: the source text. -/
def tr (sourceText : String) : QString := sourceText.toList

/-- Models `QString::fromStdString`. -/
def QString.fromStdString (s : String) : QString := s.toList

/-- Models `QString::number(n)`, the decimal text `QString::arg(int)` substitutes. -/
def QString.number (n : Int) : QString := (toString n).toList

/-- Models `QString::arg(a)` for a template whose only place marker is `%1`:
every `%1` is replaced by `a`. -/
def QString.arg : QString → QString → QString
  | [], _ => []
  | [c], _ => [c]
  | c₁ :: c₂ :: rest, a =>
    if c₁ = '%' ∧ c₂ = '1' then a ++ QString.arg rest a
    else c₁ :: QString.arg (c₂ :: rest) a

/-- Models `QString::left(n)`. -/
def QString.left (s : QString) (n : Nat) : QString := s.take n

/-! ## Objects and events -/

/-- Identity of a `QObject`. -/
abbrev QObject := Nat

/-- Models `QEvent::Type`, with the values the dialogs look at named. -/
inductive QEventType where
  | Show
  | Hide
  | Close
  | other (code : Nat)
  deriving DecidableEq, Repr

/-- A `QEvent`. -/
structure QEvent where
  type : QEventType
  deriving DecidableEq, Repr

/-! ## `QDialog` and `QDialogBase` -/

/-- Signals of `QDialog`. -/
inductive DialogSignal where
  | finished (r : Int)
  | accepted
  | rejected
  deriving DecidableEq, Repr

/-- Models `QDialog::Rejected`. -/
def Rejected : Int := 0

/-- Models `QDialog::Accepted`. -/
def Accepted : Int := 1

/-- State of a `QDialogBase` (a `QDialog` with a non-null parent, on which
the dialog is installed as event filter). -/
structure QDialogBase where
  /-- Models `parent()`; `Q_ASSERT(parent != nullptr)`. -/
  parent : QObject
  /-- Models `result()`. -/
  result : Int
  /-- Models `isVisible()`: the dialog is open and its event loop runs. -/
  visible : Bool
  /-- Signals emitted so far, oldest first. -/
  signals : List DialogSignal
  deriving DecidableEq, Repr

/-- Models `QDialogBase::QDialogBase(parent)`. -/
def QDialogBase.new (parent : QObject) : QDialogBase :=
  { parent := parent, result := Rejected, visible := false, signals := [] }

/-- Models `QDialog::done(r)`: sets the result code, hides the dialog (which leaves
its event loop), emits `finished(r)` and then `accepted()` or `rejected()`. -/
def QDialogBase.done (d : QDialogBase) (r : Int) : QDialogBase :=
  { d with
    result := r
    visible := false
    signals := d.signals ++ DialogSignal.finished r ::
      (if r = Accepted then [DialogSignal.accepted]
       else if r = Rejected then [DialogSignal.rejected] else []) }

/-- Models `QDialog::accept()`. -/
def QDialogBase.accept (d : QDialogBase) : QDialogBase := d.done Accepted

/-- Models `QDialog::reject()`. -/
def QDialogBase.reject (d : QDialogBase) : QDialogBase := d.done Rejected

/-- Models `QDialogBase::eventFilter(o, e)`: the dialog rejects itself when its
parent is hidden, and hands the event to the base class, `baseFilter`,
whose answer it returns. -/
def QDialogBase.eventFilter (baseFilter : QObject → QEvent → Bool)
    (d : QDialogBase) (o : QObject) (e : QEvent) : QDialogBase × Bool :=
  let d := if o = d.parent ∧ e.type = QEventType.Hide then d.reject else d
  (d, baseFilter o e)

/-- Start of `QDialogBase::exec()`: `setMainWindow(this)` and, in
`QDialog::exec()`, `setResult(0)` and `show()`. -/
def QDialogBase.execStart (d : QDialogBase) : QDialogBase :=
  { d with result := 0, visible := true }

/-- The event loop of `QDialog::exec()`: events are dispatched, in order,
for as long as the dialog is visible. -/
def processEvents {S E : Type} (visible : S → Bool) (dispatch : S → E → S) :
    S → List E → S
  | s, [] => s
  | s, e :: es =>
    if visible s then processEvents visible dispatch (dispatch s e) es else s

/-- The event whose slot closed the dialog, if the loop got that far. -/
def closingEvent {S E : Type} (visible : S → Bool) (dispatch : S → E → S) :
    S → List E → Option E
  | _, [] => none
  | s, e :: es =>
    if visible s then
      if visible (dispatch s e) then closingEvent visible dispatch (dispatch s e) es
      else some e
    else none

/-! ## `QLineEdit`, validators and the toolkit -/

/-- Models `QValidator::State`. -/
inductive ValidatorState where
  | Invalid
  | Intermediate
  | Acceptable
  deriving DecidableEq, Repr

/-- A `QValidator`, as the function `validate` computes on the input text. -/
abbrev QValidator := QString → ValidatorState

/-- Models `QLineEdit::EchoMode`, the two values used. -/
inductive EchoMode where
  | Normal
  | Password
  deriving DecidableEq, Repr

/-- State of a `QLineEdit`. -/
structure QLineEdit where
  /-- Models `text()`. -/
  text : QString
  /-- Models `maxLength()`. -/
  maxLength : Nat
  /-- Models `echoMode()`. -/
  echoMode : EchoMode
  /-- Models `validator()`. -/
  validator : Option QValidator

/-- The `maxLength()` of a new `QLineEdit`; `input.cc` never changes it. -/
def QLineEdit.defaultMaxLength : Nat := 32767

/-- Models `new QLineEdit()`. -/
def QLineEdit.new : QLineEdit :=
  { text := [], maxLength := QLineEdit.defaultMaxLength, echoMode := EchoMode.Normal,
    validator := none }

/-- Models `QLineEdit::setText`: the text is truncated to `maxLength()`, and is
not validated. -/
def QLineEdit.setText (l : QLineEdit) (text : QString) : QLineEdit :=
  { l with text := text.left l.maxLength }

/-- Models `QLineEdit::setEchoMode`. -/
def QLineEdit.setEchoMode (l : QLineEdit) (m : EchoMode) : QLineEdit :=
  { l with echoMode := m }

/-- Models `QLineEdit::setValidator`. -/
def QLineEdit.setValidator (l : QLineEdit) (v : QValidator) : QLineEdit :=
  { l with validator := some v }

/-- The behaviour of the widget toolkit the dialogs are written against and
do not fix themselves. `F` is the type of the bounds of a decimal
validator. -/
structure Toolkit (F : Type) where
  /-- Models `QLineEdit::insert(newText)`. -/
  insert : QLineEdit → QString → QLineEdit
  /-- Models `QLineEdit::backspace()`. -/
  backspace : QLineEdit → QLineEdit
  /-- Models `QDoubleValidator(bottom, top, decimals)`. -/
  QDoubleValidator : F → F → Int → QValidator
  /-- Models `QDialog::eventFilter(o, e)`. -/
  baseFilter : QObject → QEvent → Bool

/-! ## `InputDialog` -/

/-- Signals of `InputDialog`. -/
inductive InputSignal where
  | cancel
  | emitText (text : QString)
  deriving DecidableEq, Repr

/-- State of an `InputDialog`. -/
structure InputDialog where
  /-- The `QDialogBase` part. -/
  base : QDialogBase
  /-- Text of the title `label`. -/
  label : QString
  /-- Text of `sublabel`, created for a non-empty subtitle. -/
  sublabel : Option QString
  /-- The input field `line`. -/
  line : QLineEdit
  /-- Checked state of `eye_btn`, created for a secret input. -/
  eye_btn : Option Bool
  /-- Layout set on the keyboard `k`, if one was set. -/
  keyboardLayout : Option Int
  /-- The member `minLength`. -/
  minLength : Int
  /-- Signals emitted so far, oldest first. -/
  emitted : List InputSignal

/-- Models `InputDialog::InputDialog(title, parent, subtitle, secret)`; the
declaration defaults `subtitle` to the empty string and `secret` to false. The slot of
`eye_btn` runs once, for `setChecked(true)`, and sets the password echo
mode. The constructor does not assign `minLength`; it is zero here, and both
static entry points assign it before the dialog runs. -/
def InputDialog.new (title : QString) (parent : QObject) (subtitle : QString)
    (secret : Bool) : InputDialog :=
  { base := QDialogBase.new parent
    label := title
    sublabel := if subtitle.isEmpty then none else some subtitle
    line := if secret then QLineEdit.new.setEchoMode EchoMode.Password else QLineEdit.new
    eye_btn := if secret then some true else none
    keyboardLayout := none
    minLength := 0
    emitted := [] }

/-- Models `InputDialog::text()`. -/
def InputDialog.text (d : InputDialog) : QString := d.line.text

/-- Models `InputDialog::setText(text)`. -/
def InputDialog.setText (d : InputDialog) (text : QString) : InputDialog :=
  { d with line := d.line.setText text }

/-- Models `InputDialog::setMinLength(length)`. -/
def InputDialog.setMinLength (d : InputDialog) (length : Int) : InputDialog :=
  { d with minLength := length }

/-- Models `InputDialog::setMessage(message, clearInputField)`. -/
def InputDialog.setMessage (d : InputDialog) (message : QString)
    (clearInputField : Bool) : InputDialog :=
  let d := { d with label := message }
  if clearInputField then { d with line := d.line.setText [] } else d

/-- Emission of `emitText(text)`. -/
def InputDialog.emitText (d : InputDialog) (text : QString) : InputDialog :=
  { d with emitted := d.emitted ++ [InputSignal.emitText text] }

/-- Emission of `cancel()`. -/
def InputDialog.cancel (d : InputDialog) : InputDialog :=
  { d with emitted := d.emitted ++ [InputSignal.cancel] }

/-- Models `InputDialog::handleEnter()`. -/
def InputDialog.handleEnter (d : InputDialog) : InputDialog :=
  if (d.line.text.length : Int) ≥ d.minLength then
    let d := { d with base := d.base.done Accepted }
    d.emitText d.line.text
  else
    d.setMessage ((tr "Need at least %1 characters!").arg (QString.number d.minLength)) false

/-- The slot of `eye_btn`, connected to `toggled(checked)`. -/
def InputDialog.eyeToggled (d : InputDialog) (checked : Bool) : InputDialog :=
  { d with
    eye_btn := d.eye_btn.map fun _ => checked
    line := d.line.setEchoMode (if checked then EchoMode.Password else EchoMode.Normal) }

/-- What can happen to an open `InputDialog`. -/
inductive InputEvent where
  /-- The keyboard emits `emitKey(key)`. -/
  | emitKey (key : QString)
  /-- The keyboard emits `emitBackspace()`. -/
  | emitBackspace
  /-- The keyboard emits `emitEnter()`. -/
  | emitEnter
  /-- The Cancel button is clicked. -/
  | cancelClicked
  /-- The eye button is clicked. -/
  | eyeClicked
  /-- Event `e` for object `o` reaches the dialog as event filter. -/
  | filtered (o : QObject) (e : QEvent)
  deriving DecidableEq, Repr

/-- The connections made by the constructor of `InputDialog`, and the event
filter of `QDialogBase`. -/
def InputDialog.dispatch {F : Type} (tk : Toolkit F) (d : InputDialog) :
    InputEvent → InputDialog
  | InputEvent.emitKey key => { d with line := tk.insert d.line (key.left 1) }
  | InputEvent.emitBackspace => { d with line := tk.backspace d.line }
  | InputEvent.emitEnter => d.handleEnter
  | InputEvent.cancelClicked => InputDialog.cancel { d with base := d.base.reject }
  | InputEvent.eyeClicked =>
    match d.eye_btn with
    | some checked => d.eyeToggled (!checked)
    | none => d
  | InputEvent.filtered o e =>
    { d with base := (d.base.eventFilter tk.baseFilter o e).1 }

/-- State of the dialog after `exec()` has had the events `evs`. -/
def InputDialog.run {F : Type} (tk : Toolkit F) (d : InputDialog)
    (evs : List InputEvent) : InputDialog :=
  processEvents (fun d => d.base.visible) (InputDialog.dispatch tk)
    { d with base := d.base.execStart } evs

/-- Models `exec()` on an `InputDialog`: the result code and the dialog as it is
when `exec` returns; `none` when `evs` leaves the dialog open. -/
def InputDialog.exec {F : Type} (tk : Toolkit F) (d : InputDialog)
    (evs : List InputEvent) : Option (Int × InputDialog) :=
  let d := d.run tk evs
  if d.base.visible then none else some (d.base.result, d)

/-- The event that closed the dialog during `exec()`. -/
def InputDialog.closedBy {F : Type} (tk : Toolkit F) (d : InputDialog)
    (evs : List InputEvent) : Option InputEvent :=
  closingEvent (fun d => d.base.visible) (InputDialog.dispatch tk)
    { d with base := d.base.execStart } evs

/-- Models `InputDialog::getText(prompt, parent, subtitle, secret, minLength,
defaultText)`, the user acting as `evs`. -/
def InputDialog.getText {F : Type} (tk : Toolkit F) (prompt : QString) (parent : QObject)
    (subtitle : QString) (secret : Bool) (minLength : Int) (defaultText : QString)
    (evs : List InputEvent) : Option QString :=
  let d := InputDialog.new prompt parent subtitle secret
  let d := { d with line := d.line.setText defaultText }
  let d := d.setMinLength minLength
  match d.exec tk evs with
  | none => none
  | some (ret, d) => some (if ret ≠ 0 then d.text else [])

/-- Models `InputDialog::getConfigDecimal(prompt, parent, existingValue, min, max)`,
the user acting as `evs`. -/
def InputDialog.getConfigDecimal {F : Type} (tk : Toolkit F) (prompt : QString)
    (parent : QObject) (existingValue : String) (min max : F)
    (evs : List InputEvent) : Option QString :=
  let d := InputDialog.new prompt parent [] false
  let existing := QString.fromStdString existingValue
  let d := d.setText existing
  let d := d.setMinLength 1
  let validator := tk.QDoubleValidator min max 4
  let d := { d with line := d.line.setValidator validator }
  let d := { d with keyboardLayout := some 2 }
  match d.exec tk evs with
  | none => none
  | some (ret, d) =>
    if ret ≠ 0 then
      let input := d.text
      if validator input = ValidatorState.Acceptable then some d.text else some []
    else some []

/-- The dialog that `getText` runs: as constructed, with the default text
in the input field and `minLength` set. -/
def InputDialog.getTextDialog (prompt : QString) (parent : QObject) (subtitle : QString)
    (secret : Bool) (minLength : Int) (defaultText : QString) : InputDialog :=
  let d := InputDialog.new prompt parent subtitle secret
  let d := { d with line := d.line.setText defaultText }
  d.setMinLength minLength

/-- The dialog that `getConfigDecimal` runs: as constructed, with the
existing value in the input field, `minLength` 1, the decimal validator on
the input field and the numbers layout on the keyboard. -/
def InputDialog.configDecimalDialog {F : Type} (tk : Toolkit F) (prompt : QString)
    (parent : QObject) (existingValue : String) (min max : F) : InputDialog :=
  let d := InputDialog.new prompt parent [] false
  let d := d.setText (QString.fromStdString existingValue)
  let d := d.setMinLength 1
  let d := { d with line := d.line.setValidator (tk.QDoubleValidator min max 4) }
  { d with keyboardLayout := some 2 }

/-! ## `ConfirmationDialog` -/

/-- A `QPushButton` of a `ConfirmationDialog`. -/
structure QPushButton where
  /-- Models `text()`. -/
  text : QString
  deriving DecidableEq, Repr

/-- State of a `ConfirmationDialog`. -/
structure ConfirmationDialog where
  /-- The `QDialogBase` part. -/
  base : QDialogBase
  /-- Text of the `prompt` label. -/
  prompt : QString
  /-- The button `cancel_btn`, when the constructor created one. -/
  cancel_btn : Option QPushButton
  /-- The button `confirm_btn`, when the constructor created one. -/
  confirm_btn : Option QPushButton
  deriving DecidableEq, Repr

/-- Models `ConfirmationDialog::ConfirmationDialog(prompt_text, confirm_text,
cancel_text, parent)`. -/
def ConfirmationDialog.new (prompt_text confirm_text cancel_text : QString)
    (parent : QObject) : ConfirmationDialog :=
  { base := QDialogBase.new parent
    prompt := prompt_text
    cancel_btn := if cancel_text.length ≠ 0 then some { text := cancel_text } else none
    confirm_btn := if confirm_text.length ≠ 0 then some { text := confirm_text } else none }

/-- What can happen to an open `ConfirmationDialog`. -/
inductive ConfirmationEvent where
  /-- A click on `cancel_btn`. -/
  | cancelClicked
  /-- A click on `confirm_btn`. -/
  | confirmClicked
  /-- Event `e` for object `o` reaches the dialog as event filter. -/
  | filtered (o : QObject) (e : QEvent)
  deriving DecidableEq, Repr

/-- The connections made by the constructor of `ConfirmationDialog`, and the
event filter of `QDialogBase`. A button that was not created is never
clicked. -/
def ConfirmationDialog.dispatch {F : Type} (tk : Toolkit F) (d : ConfirmationDialog) :
    ConfirmationEvent → ConfirmationDialog
  | ConfirmationEvent.cancelClicked =>
    match d.cancel_btn with
    | some _ => { d with base := d.base.reject }
    | none => d
  | ConfirmationEvent.confirmClicked =>
    match d.confirm_btn with
    | some _ => { d with base := d.base.accept }
    | none => d
  | ConfirmationEvent.filtered o e =>
    { d with base := (d.base.eventFilter tk.baseFilter o e).1 }

/-- State of the dialog after `exec()` has had the events `evs`. -/
def ConfirmationDialog.run {F : Type} (tk : Toolkit F) (d : ConfirmationDialog)
    (evs : List ConfirmationEvent) : ConfirmationDialog :=
  processEvents (fun d => d.base.visible) (ConfirmationDialog.dispatch tk)
    { d with base := d.base.execStart } evs

/-- Models `exec()` on a `ConfirmationDialog`; `none` when `evs` leaves the dialog
open. -/
def ConfirmationDialog.exec {F : Type} (tk : Toolkit F) (d : ConfirmationDialog)
    (evs : List ConfirmationEvent) : Option Int :=
  let d := d.run tk evs
  if d.base.visible then none else some d.base.result

/-- The event that closed the dialog during `exec()`. -/
def ConfirmationDialog.closedBy {F : Type} (tk : Toolkit F) (d : ConfirmationDialog)
    (evs : List ConfirmationEvent) : Option ConfirmationEvent :=
  closingEvent (fun d => d.base.visible) (ConfirmationDialog.dispatch tk)
    { d with base := d.base.execStart } evs

/-- Conversion of the `int` that `exec()` returns to `bool`. -/
def toBool (ret : Int) : Bool := ret ≠ 0

/-- Models `ConfirmationDialog::alert(prompt_text, parent)`, the user acting as
`evs`. -/
def ConfirmationDialog.alert {F : Type} (tk : Toolkit F) (prompt_text : QString)
    (parent : QObject) (evs : List ConfirmationEvent) : Option Bool :=
  let d := ConfirmationDialog.new prompt_text (tr "Ok") [] parent
  (d.exec tk evs).map toBool

/-- Models `ConfirmationDialog::confirm(prompt_text, parent)`, the user acting as
`evs`. -/
def ConfirmationDialog.confirm {F : Type} (tk : Toolkit F) (prompt_text : QString)
    (parent : QObject) (evs : List ConfirmationEvent) : Option Bool :=
  let d := ConfirmationDialog.new prompt_text (tr "Ok") (tr "Cancel") parent
  (d.exec tk evs).map toBool

/-! ## `MultiOptionDialog` -/

/-- State of a `MultiOptionDialog`. The option buttons are the buttons of
the exclusive `QButtonGroup`, in the order of the option list; an exclusive
group has at most one checked button, `checkedButton`. -/
structure MultiOptionDialog where
  /-- The `QDialogBase` part. -/
  base : QDialogBase
  /-- Text of the `title` label. -/
  title : QString
  /-- The constructor argument `current`, captured by the slots. -/
  current : QString
  /-- Texts of the option buttons added to `group`, in order. -/
  options : List QString
  /-- Index of `group->checkedButton()`. -/
  checkedButton : Option Nat
  /-- Models `confirm_btn->isEnabled()`, the Select button. -/
  confirmEnabled : Bool
  /-- The member `selection`. -/
  selection : QString
  deriving DecidableEq, Repr

/-- The slot connected to `toggled(checked)` of the option button with
text `s`. -/
def MultiOptionDialog.toggled (d : MultiOptionDialog) (s : QString) (checked : Bool) :
    MultiOptionDialog :=
  let d := if checked then { d with selection := s } else d
  if d.selection ≠ d.current then { d with confirmEnabled := true }
  else { d with confirmEnabled := false }

/-- One round of the constructor loop `for (const QString &s : l)`. The
button is checked by `setChecked(s == current)` before its slot is connected,
so that emits nothing. `group->addButton` of a checked button makes it the
checked button of the exclusive group and unchecks the button that was, whose
`toggled(false)` runs its slot. -/
def MultiOptionDialog.addOption (d : MultiOptionDialog) (s : QString) : MultiOptionDialog :=
  let checked : Bool := s = d.current
  let index := d.options.length
  let d := { d with options := d.options ++ [s] }
  if checked then
    let previous := d.checkedButton
    let d := { d with checkedButton := some index }
    match previous with
    | some p => d.toggled (d.options.getD p []) false
    | none => d
  else d

/-- Models `MultiOptionDialog::MultiOptionDialog(prompt_text, l, current, parent)`.
`selection` is default-constructed, and `confirm_btn->setEnabled(false)`
comes before the loop. -/
def MultiOptionDialog.new (prompt_text : QString) (l : QStringList) (current : QString)
    (parent : QObject) : MultiOptionDialog :=
  let d : MultiOptionDialog :=
    { base := QDialogBase.new parent
      title := prompt_text
      current := current
      options := []
      checkedButton := none
      confirmEnabled := false
      selection := [] }
  l.foldl MultiOptionDialog.addOption d

/-- A click on option button `i`. There is no click on a button that does
not exist, and the checked button of an exclusive group stays checked. Any
other button becomes the checked one: the button that was checked is
unchecked and emits `toggled(false)`, then the clicked one emits
`toggled(true)`. -/
def MultiOptionDialog.optionClicked (d : MultiOptionDialog) (i : Nat) : MultiOptionDialog :=
  match d.options.get? i with
  | none => d
  | some s =>
    if d.checkedButton = some i then d
    else
      let previous := d.checkedButton
      let d := { d with checkedButton := some i }
      let d :=
        match previous with
        | some p => d.toggled (d.options.getD p []) false
        | none => d
      d.toggled s true

/-- What can happen to an open `MultiOptionDialog`. -/
inductive MultiOptionEvent where
  /-- A click on the option button at index `i`. -/
  | optionClicked (i : Nat)
  /-- A click on the Select button, `confirm_btn`. -/
  | selectClicked
  /-- A click on the Cancel button. -/
  | cancelClicked
  /-- Event `e` for object `o` reaches the dialog as event filter. -/
  | filtered (o : QObject) (e : QEvent)
  deriving DecidableEq, Repr

/-- The connections made by the constructor of `MultiOptionDialog`, and the
event filter of `QDialogBase`. A disabled button emits no `clicked`. -/
def MultiOptionDialog.dispatch {F : Type} (tk : Toolkit F) (d : MultiOptionDialog) :
    MultiOptionEvent → MultiOptionDialog
  | MultiOptionEvent.optionClicked i => d.optionClicked i
  | MultiOptionEvent.selectClicked =>
    if d.confirmEnabled then { d with base := d.base.accept } else d
  | MultiOptionEvent.cancelClicked => { d with base := d.base.reject }
  | MultiOptionEvent.filtered o e =>
    { d with base := (d.base.eventFilter tk.baseFilter o e).1 }

/-- State of the dialog after `exec()` has had the events `evs`. -/
def MultiOptionDialog.run {F : Type} (tk : Toolkit F) (d : MultiOptionDialog)
    (evs : List MultiOptionEvent) : MultiOptionDialog :=
  processEvents (fun d => d.base.visible) (MultiOptionDialog.dispatch tk)
    { d with base := d.base.execStart } evs

/-- Models `exec()` on a `MultiOptionDialog`: the result code and the dialog as it
is when `exec` returns; `none` when `evs` leaves the dialog open. -/
def MultiOptionDialog.exec {F : Type} (tk : Toolkit F) (d : MultiOptionDialog)
    (evs : List MultiOptionEvent) : Option (Int × MultiOptionDialog) :=
  let d := d.run tk evs
  if d.base.visible then none else some (d.base.result, d)

/-- The event that closed the dialog during `exec()`. -/
def MultiOptionDialog.closedBy {F : Type} (tk : Toolkit F) (d : MultiOptionDialog)
    (evs : List MultiOptionEvent) : Option MultiOptionEvent :=
  closingEvent (fun d => d.base.visible) (MultiOptionDialog.dispatch tk)
    { d with base := d.base.execStart } evs

/-- Models `MultiOptionDialog::getSelection(prompt_text, l, current, parent)`, the
user acting as `evs`. -/
def MultiOptionDialog.getSelection {F : Type} (tk : Toolkit F) (prompt_text : QString)
    (l : QStringList) (current : QString) (parent : QObject)
    (evs : List MultiOptionEvent) : Option QString :=
  let d := MultiOptionDialog.new prompt_text l current parent
  match d.exec tk evs with
  | none => none
  | some (ret, d) => if ret ≠ 0 then some d.selection else some []

/-! ## A reference toolkit

A plain instance of `Toolkit`, for evaluating the dialogs on concrete
inputs: the cursor of the line edit stays at the end of the text, an edit
is cut at the maximum length and dropped if the validator calls it invalid,
the decimal validator reads unsigned whole numbers with integer bounds, and
the base-class event filter consumes nothing. -/

/-- Value of a text of decimal digits; `none` for any other text. -/
def digitsValue : QString → Option Nat
  | [] => none
  | cs => if cs.all Char.isDigit then some (cs.foldl (fun n c => 10 * n + (c.toNat - 48)) 0)
          else none

/-- The validator of the reference toolkit. -/
def plainValidator (bottom top : Int) (_decimals : Int) : QValidator := fun input =>
  match input, digitsValue input with
  | [], _ => ValidatorState.Intermediate
  | _, none => ValidatorState.Invalid
  | _, some n =>
    if bottom ≤ (n : Int) ∧ (n : Int) ≤ top then ValidatorState.Acceptable
    else ValidatorState.Intermediate

/-- An edit of the reference toolkit: `text` replaces the text of `l` unless
the validator of `l` calls it invalid. -/
def plainEdit (l : QLineEdit) (text : QString) : QLineEdit :=
  let text := text.left l.maxLength
  match l.validator with
  | some v => if v text = ValidatorState.Invalid then l else { l with text := text }
  | none => { l with text := text }

/-- The reference toolkit. -/
def plainToolkit : Toolkit Int :=
  { insert := fun l newText => plainEdit l (l.text ++ newText)
    backspace := fun l => plainEdit l l.text.dropLast
    QDoubleValidator := plainValidator
    baseFilter := fun _ _ => false }

/-! ## The event loop -/

theorem processEvents_hidden {S E : Type} (visible : S → Bool) (dispatch : S → E → S)
    (s : S) (evs : List E) (h : visible s = false) :
    processEvents visible dispatch s evs = s := by
  cases evs with
  | nil => rfl
  | cons x xs => simp [processEvents, h]

theorem processEvents_append {S E : Type} (visible : S → Bool) (dispatch : S → E → S)
    (s : S) (evs : List E) (e : E) :
    processEvents visible dispatch s (evs ++ [e]) =
      if visible (processEvents visible dispatch s evs)
      then dispatch (processEvents visible dispatch s evs) e
      else processEvents visible dispatch s evs := by
  induction evs generalizing s with
  | nil => simp [processEvents]
  | cons x xs ih =>
    simp only [List.cons_append, processEvents]
    by_cases h : visible s
    · simp [h, ih]
    · simp [h]

/-- An invariant of the slots, as far as they run on an open dialog, holds
after the event loop. -/
theorem processEvents_invariant {S E : Type} (visible : S → Bool) (dispatch : S → E → S)
    (P : S → Prop) (hstep : ∀ s e, visible s = true → P s → P (dispatch s e))
    (s : S) (hs : P s) (evs : List E) : P (processEvents visible dispatch s evs) := by
  induction evs generalizing s with
  | nil => simpa [processEvents] using hs
  | cons x xs ih =>
    simp only [processEvents]
    by_cases h : visible s
    · simp only [h, if_true]; exact ih _ (hstep s x h hs)
    · simpa [h] using hs

/-- The two ways the event loop of an open dialog can stand after `evs`:
still open, with no closing event and the invariant `P` of the open dialog;
or closed by an event `e`, in the state `Q e` that the slot of `e` leaves. -/
theorem eventLoop_cases {S E : Type} (visible : S → Bool) (dispatch : S → E → S)
    (P : S → Prop) (Q : E → S → Prop)
    (hstep : ∀ s e, visible s = true → P s →
      (visible (dispatch s e) = true → P (dispatch s e)) ∧
      (visible (dispatch s e) = false → Q e (dispatch s e)))
    (s : S) (evs : List E) (hv : visible s = true) (hs : P s) :
    (closingEvent visible dispatch s evs = none ∧
      visible (processEvents visible dispatch s evs) = true ∧
      P (processEvents visible dispatch s evs)) ∨
    (∃ e, closingEvent visible dispatch s evs = some e ∧
      visible (processEvents visible dispatch s evs) = false ∧
      Q e (processEvents visible dispatch s evs)) := by
  induction evs generalizing s with
  | nil => exact Or.inl ⟨rfl, hv, hs⟩
  | cons x xs ih =>
    simp only [closingEvent, processEvents, hv, if_true]
    cases h : visible (dispatch s x) with
    | true => simpa using ih (dispatch s x) h ((hstep s x hv hs).1 h)
    | false =>
      refine Or.inr ⟨x, by simp, ?_, ?_⟩
      · rw [processEvents_hidden visible dispatch _ xs h]; exact h
      · rw [processEvents_hidden visible dispatch _ xs h]; exact (hstep s x hv hs).2 h

/-! ## `QDialogBase` -/

theorem QDialogBase_reject_ne (d : QDialogBase) : d.reject ≠ d := by
  intro h
  have h2 := congrArg (fun x => x.signals.length) h
  simp [QDialogBase.reject, QDialogBase.done] at h2

/-- C6. `QDialogBase::eventFilter`, for every watched object `o` and event
`e`: the dialog is rejected if and only if `o` is the parent of the dialog and
`e` is a Hide event, and then it is closed with result `Rejected` and has
emitted `finished(Rejected)` and `rejected()`; for every other pair the state
of the dialog is unchanged. In both cases the value returned is the value of
the base-class event filter for `(o, e)`. -/
theorem eventFilter_rejects_iff_parent_hidden (baseFilter : QObject → QEvent → Bool)
    (d : QDialogBase) (o : QObject) (e : QEvent) :
    ((d.eventFilter baseFilter o e).1 = d.reject ↔
        (o = d.parent ∧ e.type = QEventType.Hide)) ∧
    ((o = d.parent ∧ e.type = QEventType.Hide) →
        (d.eventFilter baseFilter o e).1.result = Rejected ∧
        (d.eventFilter baseFilter o e).1.visible = false ∧
        (d.eventFilter baseFilter o e).1.signals =
          d.signals ++ [DialogSignal.finished Rejected, DialogSignal.rejected]) ∧
    (¬ (o = d.parent ∧ e.type = QEventType.Hide) →
        (d.eventFilter baseFilter o e).1 = d) ∧
    (d.eventFilter baseFilter o e).2 = baseFilter o e := by
  by_cases h : o = d.parent ∧ e.type = QEventType.Hide
  · refine ⟨by simp [QDialogBase.eventFilter, h], fun _ => ?_, fun hn => absurd h hn, rfl⟩
    simp [QDialogBase.eventFilter, h, QDialogBase.reject, QDialogBase.done, Rejected, Accepted]
  · refine ⟨?_, fun hp => absurd hp h, fun _ => by simp [QDialogBase.eventFilter, h], rfl⟩
    simp only [QDialogBase.eventFilter, h, if_false, iff_false]
    exact fun heq => QDialogBase_reject_ne d heq.symm

theorem eventFilter_rejects_iff_parent_hidden_witness :
    (((QDialogBase.new 7).execStart.eventFilter (fun _ _ => false) 7
        { type := QEventType.Hide }).1.result = Rejected ∧
      ((QDialogBase.new 7).execStart.eventFilter (fun _ _ => false) 7
        { type := QEventType.Hide }).1.visible = false ∧
      ((QDialogBase.new 7).execStart.eventFilter (fun _ _ => false) 7
        { type := QEventType.Hide }).1.signals =
          (QDialogBase.new 7).execStart.signals ++
            [DialogSignal.finished Rejected, DialogSignal.rejected]) ∧
    ((QDialogBase.new 7).execStart.eventFilter (fun _ _ => false) 8
        { type := QEventType.Hide }).1 = (QDialogBase.new 7).execStart ∧
    ((QDialogBase.new 7).execStart.eventFilter (fun _ _ => false) 7
        { type := QEventType.Show }).1 = (QDialogBase.new 7).execStart :=
  ⟨(eventFilter_rejects_iff_parent_hidden (fun _ _ => false) (QDialogBase.new 7).execStart 7
      { type := QEventType.Hide }).2.1 ⟨rfl, rfl⟩,
   (eventFilter_rejects_iff_parent_hidden (fun _ _ => false) (QDialogBase.new 7).execStart 8
      { type := QEventType.Hide }).2.2.1 (by decide),
   (eventFilter_rejects_iff_parent_hidden (fun _ _ => false) (QDialogBase.new 7).execStart 7
      { type := QEventType.Show }).2.2.1 (by decide)⟩

/-! ## `InputDialog` -/

theorem arg_need_at_least (a : QString) :
    (tr "Need at least %1 characters!").arg a
      = "Need at least ".toList ++ a ++ " characters!".toList := by
  simp [tr, QString.arg]

/-- C2. `InputDialog::handleEnter`, for every state of the dialog (every
input text and every `minLength`): if the text has at least `minLength`
characters the dialog is closed with result `Accepted` and `emitText` is
emitted, after the signals of `done`, with the current text, the label and
the input field staying as they are; otherwise the dialog part is unchanged
(not finished, nothing emitted), `emitText` is not emitted, the title label
is `Need at least <minLength> characters!` and the input field is
unchanged. -/
theorem handleEnter_accepts_or_asks_for_more (d : InputDialog) :
    ((d.text.length : Int) ≥ d.minLength →
        d.handleEnter.base = d.base.done Accepted ∧
        d.handleEnter.base.result = Accepted ∧
        d.handleEnter.base.visible = false ∧
        d.handleEnter.base.signals =
          d.base.signals ++ [DialogSignal.finished Accepted, DialogSignal.accepted] ∧
        d.handleEnter.emitted = d.emitted ++ [InputSignal.emitText d.text] ∧
        d.handleEnter.label = d.label ∧
        d.handleEnter.line = d.line) ∧
    ((d.text.length : Int) < d.minLength →
        d.handleEnter.base = d.base ∧
        d.handleEnter.emitted = d.emitted ∧
        d.handleEnter.label =
          "Need at least ".toList ++ QString.number d.minLength ++ " characters!".toList ∧
        d.handleEnter.line = d.line ∧
        d.handleEnter.text = d.text) := by
  constructor
  · intro h
    have h2 : (d.line.text.length : Int) ≥ d.minLength := h
    simp [InputDialog.handleEnter, h2, InputDialog.emitText, QDialogBase.done, Accepted,
      InputDialog.text]
  · intro h
    have h2 : ¬ (d.line.text.length : Int) ≥ d.minLength := not_le.mpr h
    simp only [InputDialog.handleEnter, h2, if_false, arg_need_at_least]
    simp [InputDialog.setMessage, InputDialog.text]

theorem handleEnter_accepts_or_asks_for_more_witness :
    ((InputDialog.getTextDialog ['?'] 0 [] false 2 ['a']).handleEnter.label
        = "Need at least 2 characters!".toList ∧
      (InputDialog.getTextDialog ['?'] 0 [] false 2 ['a']).handleEnter.base
        = (InputDialog.getTextDialog ['?'] 0 [] false 2 ['a']).base) ∧
    ((InputDialog.getTextDialog ['?'] 0 [] false 2 ['a', 'b']).handleEnter.base.result
        = Accepted ∧
      (InputDialog.getTextDialog ['?'] 0 [] false 2 ['a', 'b']).handleEnter.emitted
        = [InputSignal.emitText ['a', 'b']]) :=
  ⟨⟨((handleEnter_accepts_or_asks_for_more
        (InputDialog.getTextDialog ['?'] 0 [] false 2 ['a'])).2 (by decide)).2.2.1.trans rfl,
     ((handleEnter_accepts_or_asks_for_more
        (InputDialog.getTextDialog ['?'] 0 [] false 2 ['a'])).2 (by decide)).1⟩,
   ⟨((handleEnter_accepts_or_asks_for_more
        (InputDialog.getTextDialog ['?'] 0 [] false 2 ['a', 'b'])).1 (by decide)).2.1,
    ((handleEnter_accepts_or_asks_for_more
        (InputDialog.getTextDialog ['?'] 0 [] false 2 ['a', 'b'])).1
          (by decide)).2.2.2.2.1.trans rfl⟩⟩

/-- What the event loop of an `InputDialog` leaves after `evs`. -/
theorem InputDialog_run_cases {F : Type} (tk : Toolkit F) (d : InputDialog)
    (evs : List InputEvent) :
    (d.closedBy tk evs = none ∧ (d.run tk evs).base.visible = true ∧
      ((d.run tk evs).minLength = d.minLength ∧ (d.run tk evs).base.parent = d.base.parent ∧
        (d.run tk evs).base.result = Rejected)) ∨
    (∃ e, d.closedBy tk evs = some e ∧ (d.run tk evs).base.visible = false ∧
      ((d.run tk evs).minLength = d.minLength ∧ (d.run tk evs).base.parent = d.base.parent ∧
        ((e = InputEvent.emitEnter ∧ (d.run tk evs).base.result = Accepted ∧
            ((d.run tk evs).text.length : Int) ≥ d.minLength) ∨
         ((e = InputEvent.cancelClicked ∨
            ∃ ev, e = InputEvent.filtered d.base.parent ev ∧ ev.type = QEventType.Hide) ∧
          (d.run tk evs).base.result = Rejected)))) := by
  refine eventLoop_cases (fun s : InputDialog => s.base.visible) (InputDialog.dispatch tk)
    (fun s => s.minLength = d.minLength ∧ s.base.parent = d.base.parent ∧
      s.base.result = Rejected)
    (fun e s => s.minLength = d.minLength ∧ s.base.parent = d.base.parent ∧
        ((e = InputEvent.emitEnter ∧ s.base.result = Accepted ∧
            (s.text.length : Int) ≥ d.minLength) ∨
         ((e = InputEvent.cancelClicked ∨
            ∃ ev, e = InputEvent.filtered d.base.parent ev ∧ ev.type = QEventType.Hide) ∧
          s.base.result = Rejected)))
    ?_ _ evs rfl ⟨rfl, rfl, rfl⟩
  rintro s e hv ⟨hm, hp, hr⟩
  replace hv : s.base.visible = true := hv
  rw [← hm, ← hp]
  cases e with
  | emitKey key => simp [InputDialog.dispatch, hr, hv]
  | emitBackspace => simp [InputDialog.dispatch, hr, hv]
  | emitEnter =>
    by_cases hl : (s.line.text.length : Int) ≥ s.minLength
    · simp [InputDialog.dispatch, InputDialog.handleEnter, hl, InputDialog.emitText,
        QDialogBase.done, InputDialog.text, Accepted]
    · simp [InputDialog.dispatch, InputDialog.handleEnter, hl, InputDialog.setMessage,
        hr, hv]
  | cancelClicked =>
    simp [InputDialog.dispatch, InputDialog.cancel, QDialogBase.reject, QDialogBase.done,
      Rejected, Accepted]
  | eyeClicked =>
    cases he : s.eye_btn <;>
      simp [InputDialog.dispatch, he, InputDialog.eyeToggled, hr, hv]
  | filtered o ev =>
    by_cases hc : o = s.base.parent ∧ ev.type = QEventType.Hide
    · obtain ⟨ho, ht⟩ := hc
      subst ho
      simp [InputDialog.dispatch, QDialogBase.eventFilter, ht, QDialogBase.reject,
        QDialogBase.done, Rejected, Accepted]
    · simp [InputDialog.dispatch, QDialogBase.eventFilter, hc, hr, hv]

theorem InputDialog_exec_eq {F : Type} (tk : Toolkit F) (d : InputDialog)
    (evs : List InputEvent) :
    d.exec tk evs =
      if (d.run tk evs).base.visible then none
      else some ((d.run tk evs).base.result, d.run tk evs) := rfl

/-- What `exec()` on an `InputDialog` returns, when it returns. -/
theorem InputDialog_exec_some {F : Type} (tk : Toolkit F) (d : InputDialog)
    (evs : List InputEvent) (ret : Int) (d' : InputDialog)
    (h : d.exec tk evs = some (ret, d')) :
    d' = d.run tk evs ∧ ret = d'.base.result ∧ d'.minLength = d.minLength ∧
      ((ret = Accepted ∧ (d'.text.length : Int) ≥ d.minLength) ∨ ret = Rejected) := by
  rw [InputDialog_exec_eq] at h
  cases hv : (d.run tk evs).base.visible with
  | true => simp [hv] at h
  | false =>
    simp only [hv, Bool.false_eq_true, if_false, Option.some.injEq, Prod.mk.injEq] at h
    obtain ⟨h1, h2⟩ := h
    subst h2
    subst h1
    rcases InputDialog_run_cases tk d evs with ⟨_, hopen, _⟩ | ⟨e, _, _, hm, _, hq⟩
    · rw [hv] at hopen; cases hopen
    · refine ⟨rfl, rfl, hm, ?_⟩
      rcases hq with ⟨_, hr, hl⟩ | ⟨_, hr⟩
      · exact Or.inl ⟨hr, hl⟩
      · exact Or.inr hr

/-- A click on Cancel always ends `exec()` on an `InputDialog`. -/
theorem InputDialog_exec_cancel_isSome {F : Type} (tk : Toolkit F) (d : InputDialog)
    (evs : List InputEvent) :
    (d.exec tk (evs ++ [InputEvent.cancelClicked])).isSome = true := by
  have hrun : (d.run tk (evs ++ [InputEvent.cancelClicked])).base.visible = false := by
    unfold InputDialog.run
    rw [processEvents_append]
    cases hv : (processEvents (fun d : InputDialog => d.base.visible) (InputDialog.dispatch tk)
        { d with base := d.base.execStart } evs).base.visible with
    | true =>
      simp [hv, InputDialog.dispatch, InputDialog.cancel, QDialogBase.reject, QDialogBase.done]
    | false => simp [hv]
  simp [InputDialog_exec_eq, hrun]

theorem InputDialog_getText_eq {F : Type} (tk : Toolkit F) (prompt : QString)
    (parent : QObject) (subtitle : QString) (secret : Bool) (minLength : Int)
    (defaultText : QString) (evs : List InputEvent) :
    InputDialog.getText tk prompt parent subtitle secret minLength defaultText evs =
      match (InputDialog.getTextDialog prompt parent subtitle secret minLength
          defaultText).exec tk evs with
      | none => none
      | some (ret, d) => some (if ret ≠ 0 then d.text else []) := rfl

theorem InputDialog_getConfigDecimal_eq {F : Type} (tk : Toolkit F) (prompt : QString)
    (parent : QObject) (existingValue : String) (min max : F) (evs : List InputEvent) :
    InputDialog.getConfigDecimal tk prompt parent existingValue min max evs =
      match (InputDialog.configDecimalDialog tk prompt parent existingValue min max).exec
          tk evs with
      | none => none
      | some (ret, d) =>
        if ret ≠ 0 then
          if tk.QDoubleValidator min max 4 d.text = ValidatorState.Acceptable then some d.text
          else some []
        else some [] := rfl

/-- C1. `InputDialog::getConfigDecimal`, for every prompt, existing value,
`min`, `max` and every course `evs` of the dialog: when `exec()` returns, the
function returns the text of the input field if the dialog was accepted and
the decimal validator with bounds `min`, `max` and 4 decimals calls that text
`Acceptable`, and the empty string in every other case (dialog rejected, or
text not `Acceptable`); conversely a non-empty result is the text of the
input field of an accepted dialog, and the validator calls it `Acceptable`.
The function has no result only while the dialog is open, and a click on
Cancel always gives it one. -/
theorem getConfigDecimal_returns_accepted_valid_text {F : Type} (tk : Toolkit F)
    (prompt : QString) (parent : QObject) (existingValue : String) (min max : F)
    (evs : List InputEvent) :
    (∀ ret d,
      (InputDialog.configDecimalDialog tk prompt parent existingValue min max).exec tk evs
        = some (ret, d) →
      ((ret = Accepted ∧ tk.QDoubleValidator min max 4 d.text = ValidatorState.Acceptable) →
        InputDialog.getConfigDecimal tk prompt parent existingValue min max evs
          = some d.text) ∧
      (¬ (ret = Accepted ∧ tk.QDoubleValidator min max 4 d.text = ValidatorState.Acceptable) →
        InputDialog.getConfigDecimal tk prompt parent existingValue min max evs
          = some []) ∧
      (∀ r, InputDialog.getConfigDecimal tk prompt parent existingValue min max evs = some r →
        r ≠ [] →
        r = d.text ∧ ret = Accepted ∧
          tk.QDoubleValidator min max 4 d.text = ValidatorState.Acceptable)) ∧
    ((InputDialog.configDecimalDialog tk prompt parent existingValue min max).exec tk evs
        = none →
      InputDialog.getConfigDecimal tk prompt parent existingValue min max evs = none) ∧
    (∀ r, InputDialog.getConfigDecimal tk prompt parent existingValue min max evs = some r →
      r ≠ [] → tk.QDoubleValidator min max 4 r = ValidatorState.Acceptable) ∧
    (InputDialog.getConfigDecimal tk prompt parent existingValue min max
      (evs ++ [InputEvent.cancelClicked])).isSome = true := by
  refine ⟨?_, ?_, ?_, ?_⟩
  · intro ret d h
    obtain ⟨_, _, _, hret⟩ := InputDialog_exec_some tk _ evs ret d h
    rw [InputDialog_getConfigDecimal_eq, h]
    refine ⟨?_, ?_, ?_⟩
    · rintro ⟨ha, hval⟩
      simp [ha, hval, Accepted]
    · intro hn
      rcases hret with ⟨ha, _⟩ | hr
      · have hval : ¬ tk.QDoubleValidator min max 4 d.text = ValidatorState.Acceptable :=
          fun hval => hn ⟨ha, hval⟩
        simp [hval]
      · simp [hr, Rejected]
    · intro r hr hne
      replace hr : (if ret ≠ 0 then
          if tk.QDoubleValidator min max 4 d.text = ValidatorState.Acceptable then some d.text
          else some []
        else some []) = some r := hr
      rcases hret with ⟨ha, _⟩ | hrej
      · by_cases hval : tk.QDoubleValidator min max 4 d.text = ValidatorState.Acceptable
        · have hnz : ret ≠ 0 := by rw [ha]; decide
          rw [if_pos hnz, if_pos hval, Option.some.injEq] at hr
          exact ⟨hr.symm, ha, hval⟩
        · rw [if_neg hval, ite_self, Option.some.injEq] at hr
          exact absurd hr.symm hne
      · have hz : ¬ ret ≠ 0 := by rw [hrej]; decide
        rw [if_neg hz, Option.some.injEq] at hr
        exact absurd hr.symm hne
  · intro h
    rw [InputDialog_getConfigDecimal_eq, h]
  · intro r h hne
    rw [InputDialog_getConfigDecimal_eq] at h
    cases hex : (InputDialog.configDecimalDialog tk prompt parent existingValue min max).exec
        tk evs with
    | none => simp [hex] at h
    | some p =>
      obtain ⟨ret, d⟩ := p
      simp only [hex] at h
      by_cases hret : ret ≠ 0
      · rw [if_pos hret] at h
        by_cases hval : tk.QDoubleValidator min max 4 d.text = ValidatorState.Acceptable
        · rw [if_pos hval, Option.some.injEq] at h
          rw [← h]; exact hval
        · rw [if_neg hval, Option.some.injEq] at h
          exact absurd h.symm hne
      · rw [if_neg hret, Option.some.injEq] at h
        exact absurd h.symm hne
  · rw [InputDialog_getConfigDecimal_eq]
    have h := InputDialog_exec_cancel_isSome tk
      (InputDialog.configDecimalDialog tk prompt parent existingValue min max) evs
    cases hex : (InputDialog.configDecimalDialog tk prompt parent existingValue min max).exec
        tk (evs ++ [InputEvent.cancelClicked]) with
    | none => simp [hex] at h
    | some p =>
      obtain ⟨ret, d⟩ := p
      by_cases hret : ret ≠ 0
      · by_cases hval : tk.QDoubleValidator min max 4 d.text = ValidatorState.Acceptable <;>
          simp [hret, hval]
      · simp [hret]

theorem getConfigDecimal_returns_accepted_valid_text_witness :
    InputDialog.getConfigDecimal plainToolkit ['?'] 0 "5" 0 100
        [InputEvent.emitKey ['0'], InputEvent.emitEnter] = some ['5', '0'] ∧
    InputDialog.getConfigDecimal plainToolkit ['?'] 0 "5" 0 100
        [InputEvent.emitKey ['0'], InputEvent.emitKey ['0'], InputEvent.emitEnter]
      = some [] ∧
    InputDialog.getConfigDecimal plainToolkit ['?'] 0 "5" 0 100
        [InputEvent.emitKey ['0'], InputEvent.cancelClicked] = some [] :=
  ⟨((getConfigDecimal_returns_accepted_valid_text plainToolkit ['?'] 0 "5" 0 100
        [InputEvent.emitKey ['0'], InputEvent.emitEnter]).1 1
        ((InputDialog.configDecimalDialog plainToolkit ['?'] 0 "5" 0 100).run plainToolkit
          [InputEvent.emitKey ['0'], InputEvent.emitEnter]) rfl).1 ⟨rfl, by decide⟩,
   ((getConfigDecimal_returns_accepted_valid_text plainToolkit ['?'] 0 "5" 0 100
        [InputEvent.emitKey ['0'], InputEvent.emitKey ['0'], InputEvent.emitEnter]).1 1
        ((InputDialog.configDecimalDialog plainToolkit ['?'] 0 "5" 0 100).run plainToolkit
          [InputEvent.emitKey ['0'], InputEvent.emitKey ['0'], InputEvent.emitEnter]) rfl).2.1
        (by decide),
   ((getConfigDecimal_returns_accepted_valid_text plainToolkit ['?'] 0 "5" 0 100
        [InputEvent.emitKey ['0'], InputEvent.cancelClicked]).1 0
        ((InputDialog.configDecimalDialog plainToolkit ['?'] 0 "5" 0 100).run plainToolkit
          [InputEvent.emitKey ['0'], InputEvent.cancelClicked]) rfl).2.1 (by decide)⟩

/-- The input field of the dialog that `getText` runs starts out holding
the default text cut at the maximum length of a new line edit. -/
theorem InputDialog_getTextDialog_text (prompt : QString) (parent : QObject)
    (subtitle : QString) (secret : Bool) (minLength : Int) (defaultText : QString) :
    (InputDialog.getTextDialog prompt parent subtitle secret minLength defaultText).text
      = defaultText.left QLineEdit.defaultMaxLength := by
  cases secret <;> rfl

/-- C3, first sentence as the claim has it, refuted: with a default text of
32768 code units, one more than the maximum length of the line edit, the
input field starts out holding the first 32767 of them, not the default
text. -/
theorem getText_field_cuts_long_default_text :
    (InputDialog.getTextDialog ['?'] 0 [] false 0 (List.replicate 32768 'a')).text
      = List.replicate 32767 'a' ∧
    (InputDialog.getTextDialog ['?'] 0 [] false 0 (List.replicate 32768 'a')).text
      ≠ List.replicate 32768 'a' := by
  have htext : (InputDialog.getTextDialog ['?'] 0 [] false 0 (List.replicate 32768 'a')).text
      = List.replicate 32767 'a' := by
    rw [InputDialog_getTextDialog_text]
    show List.take 32767 (List.replicate 32768 'a') = List.replicate 32767 'a'
    rw [List.take_replicate, Nat.min_eq_left (by decide)]
  refine ⟨htext, ?_⟩
  rw [htext]
  intro h
  have hlen := congrArg List.length h
  rw [List.length_replicate, List.length_replicate] at hlen
  exact absurd hlen (by decide)

/-- C3, amended. `InputDialog::getText`, for every prompt, `minLength`,
`defaultText` and every course `evs` of the dialog: the input field starts
out holding `defaultText` cut at the maximum length of the line edit, 32767
code units, hence `defaultText` itself when that has at most 32767 code
units; `exec()` returns `Accepted` or `Rejected`, and the function returns the
text the input field then holds when the dialog ends accepted and the empty
string when it ends rejected. A dialog closed by a click on Cancel or by an
event of the event filter (the parent being hidden) gives the empty string,
one closed by the Enter key gives the text, and a click on Cancel always
makes the function return. -/
theorem getText_returns_text_or_empty {F : Type} (tk : Toolkit F) (prompt : QString)
    (parent : QObject) (subtitle : QString) (secret : Bool) (minLength : Int)
    (defaultText : QString) (evs : List InputEvent) :
    ((InputDialog.getTextDialog prompt parent subtitle secret minLength defaultText).text
        = defaultText.left 32767 ∧
      (defaultText.length ≤ 32767 →
        (InputDialog.getTextDialog prompt parent subtitle secret minLength defaultText).text
          = defaultText)) ∧
    (∀ ret d,
      (InputDialog.getTextDialog prompt parent subtitle secret minLength defaultText).exec
        tk evs = some (ret, d) →
      (ret = Accepted ∨ ret = Rejected) ∧
      (ret = Accepted →
        InputDialog.getText tk prompt parent subtitle secret minLength defaultText evs
          = some d.text) ∧
      (ret = Rejected →
        InputDialog.getText tk prompt parent subtitle secret minLength defaultText evs
          = some [])) ∧
    ((InputDialog.getTextDialog prompt parent subtitle secret minLength defaultText).closedBy
        tk evs = some InputEvent.cancelClicked →
      InputDialog.getText tk prompt parent subtitle secret minLength defaultText evs
        = some []) ∧
    (∀ o e,
      (InputDialog.getTextDialog prompt parent subtitle secret minLength defaultText).closedBy
        tk evs = some (InputEvent.filtered o e) →
      o = parent ∧ e.type = QEventType.Hide ∧
      InputDialog.getText tk prompt parent subtitle secret minLength defaultText evs
        = some []) ∧
    ((InputDialog.getTextDialog prompt parent subtitle secret minLength defaultText).closedBy
        tk evs = some InputEvent.emitEnter →
      InputDialog.getText tk prompt parent subtitle secret minLength defaultText evs
        = some ((InputDialog.getTextDialog prompt parent subtitle secret minLength
            defaultText).run tk evs).text) ∧
    (InputDialog.getText tk prompt parent subtitle secret minLength defaultText
      (evs ++ [InputEvent.cancelClicked])).isSome = true := by
  have hcases := InputDialog_run_cases tk
    (InputDialog.getTextDialog prompt parent subtitle secret minLength defaultText) evs
  have htext := InputDialog_getTextDialog_text prompt parent subtitle secret minLength
    defaultText
  refine ⟨⟨htext, fun hlen => htext.trans (List.take_of_length_le hlen)⟩, ?_, ?_, ?_, ?_, ?_⟩
  · intro ret d h
    obtain ⟨_, _, _, hret⟩ := InputDialog_exec_some tk _ evs ret d h
    rw [InputDialog_getText_eq, h]
    refine ⟨hret.imp (fun x => x.1) id, fun ha => by simp [ha, Accepted],
      fun hr => by simp [hr, Rejected]⟩
  · intro hc
    rcases hcases with ⟨hnone, _⟩ | ⟨e, he, hv, _, _, hq⟩
    · rw [hnone] at hc; cases hc
    · rw [he] at hc
      cases hc
      rcases hq with ⟨hne, _⟩ | ⟨_, hr⟩
      · cases hne
      · rw [InputDialog_getText_eq, InputDialog_exec_eq]
        simp [hv, hr, Rejected]
  · intro o ev hc
    rcases hcases with ⟨hnone, _⟩ | ⟨e, he, hv, _, _, hq⟩
    · rw [hnone] at hc; cases hc
    · rw [he] at hc
      cases hc
      rcases hq with ⟨hne, _⟩ | ⟨hwho, hr⟩
      · cases hne
      · rcases hwho with hx | ⟨ev', hx, ht⟩
        · cases hx
        · cases hx
          refine ⟨rfl, ht, ?_⟩
          rw [InputDialog_getText_eq, InputDialog_exec_eq]
          simp [hv, hr, Rejected]
  · intro hc
    rcases hcases with ⟨hnone, _⟩ | ⟨e, he, hv, _, _, hq⟩
    · rw [hnone] at hc; cases hc
    · rw [he] at hc
      cases hc
      rcases hq with ⟨_, hr, _⟩ | ⟨hwho, _⟩
      · rw [InputDialog_getText_eq, InputDialog_exec_eq]
        simp [hv, hr, Accepted]
      · rcases hwho with hx | ⟨ev', hx, _⟩ <;> cases hx
  · rw [InputDialog_getText_eq]
    have h := InputDialog_exec_cancel_isSome tk
      (InputDialog.getTextDialog prompt parent subtitle secret minLength defaultText) evs
    cases hex : (InputDialog.getTextDialog prompt parent subtitle secret minLength
        defaultText).exec tk (evs ++ [InputEvent.cancelClicked]) with
    | none => simp [hex] at h
    | some p => simp

theorem getText_returns_text_or_empty_witness :
    (InputDialog.getTextDialog ['?'] 0 [] false 2 ['a']).text = ['a'] ∧
    InputDialog.getText plainToolkit ['?'] 0 [] false 2 ['a']
        [InputEvent.emitEnter, InputEvent.emitKey ['b', 'c'], InputEvent.emitEnter]
      = some ['a', 'b'] ∧
    InputDialog.getText plainToolkit ['?'] 0 [] false 2 ['a']
        [InputEvent.emitKey ['b'], InputEvent.cancelClicked] = some [] ∧
    InputDialog.getText plainToolkit ['?'] 0 [] false 2 ['a']
        [InputEvent.emitKey ['b'], InputEvent.filtered 0 { type := QEventType.Hide }]
      = some [] :=
  ⟨(getText_returns_text_or_empty plainToolkit ['?'] 0 [] false 2 ['a'] []).1.2 (by decide),
   ((getText_returns_text_or_empty plainToolkit ['?'] 0 [] false 2 ['a']
        [InputEvent.emitEnter, InputEvent.emitKey ['b', 'c'], InputEvent.emitEnter]).2.1 1
        ((InputDialog.getTextDialog ['?'] 0 [] false 2 ['a']).run plainToolkit
          [InputEvent.emitEnter, InputEvent.emitKey ['b', 'c'], InputEvent.emitEnter])
        rfl).2.1 rfl,
   (getText_returns_text_or_empty plainToolkit ['?'] 0 [] false 2 ['a']
        [InputEvent.emitKey ['b'], InputEvent.cancelClicked]).2.2.1 (by decide),
   ((getText_returns_text_or_empty plainToolkit ['?'] 0 [] false 2 ['a']
        [InputEvent.emitKey ['b'], InputEvent.filtered 0 { type := QEventType.Hide }]).2.2.2.1
        0 { type := QEventType.Hide } (by decide)).2.2⟩

/-- C9. An `InputDialog` is accepted only through `handleEnter`: for every
dialog and every sequence of events of its event loop (keys, backspaces,
Enter, clicks on Cancel, and the others), the result is `Accepted` only if
the Enter key closed the dialog, in a state whose text has at least
`minLength` characters, `minLength` being unchanged. Hence a string that
`InputDialog::getText` returns from an accepted dialog has at least
`minLength` characters, and `InputDialog::getConfigDecimal`, which sets
`minLength` to 1, never accepts an empty entry. -/
theorem accepted_only_with_minLength {F : Type} (tk : Toolkit F) :
    (∀ (d : InputDialog) (evs : List InputEvent),
      (d.run tk evs).base.result = Accepted →
      d.closedBy tk evs = some InputEvent.emitEnter ∧
      (d.run tk evs).minLength = d.minLength ∧
      ((d.run tk evs).text.length : Int) ≥ d.minLength) ∧
    (∀ prompt parent subtitle secret minLength defaultText evs ret d,
      (InputDialog.getTextDialog prompt parent subtitle secret minLength defaultText).exec
        tk evs = some (ret, d) →
      ret = Accepted →
      ∃ r, InputDialog.getText tk prompt parent subtitle secret minLength defaultText evs
          = some r ∧ r = d.text ∧ (r.length : Int) ≥ minLength) ∧
    (∀ prompt parent existingValue (min max : F) evs ret d,
      (InputDialog.configDecimalDialog tk prompt parent existingValue min max).exec tk evs
        = some (ret, d) →
      ret = Accepted → d.text ≠ [] ∧ 1 ≤ d.text.length) := by
  refine ⟨?_, ?_, ?_⟩
  · intro d evs hacc
    rcases InputDialog_run_cases tk d evs with ⟨_, _, _, _, hr⟩ | ⟨e, he, _, hm, _, hq⟩
    · rw [hr] at hacc; cases hacc
    · rcases hq with ⟨hent, _, hl⟩ | ⟨_, hr⟩
      · subst hent
        exact ⟨he, hm, hl⟩
      · rw [hr] at hacc; cases hacc
  · intro prompt parent subtitle secret minLength defaultText evs ret d h hacc
    obtain ⟨_, _, _, hret⟩ := InputDialog_exec_some tk _ evs ret d h
    refine ⟨d.text, ?_, rfl, ?_⟩
    · rw [InputDialog_getText_eq, h]
      simp [hacc, Accepted]
    · rcases hret with ⟨_, hl⟩ | hr
      · exact hl
      · rw [hr] at hacc; cases hacc
  · intro prompt parent existingValue min max evs ret d h hacc
    obtain ⟨_, _, _, hret⟩ := InputDialog_exec_some tk _ evs ret d h
    rcases hret with ⟨_, hl⟩ | hr
    · have h1 : (1 : Int) ≤ (d.text.length : Int) := hl
      have h2 : 1 ≤ d.text.length := by exact_mod_cast h1
      refine ⟨?_, h2⟩
      intro hnil
      rw [hnil] at h2
      simp at h2
    · rw [hr] at hacc; cases hacc


theorem accepted_only_with_minLength_witness :
    (InputDialog.getTextDialog ['?'] 0 [] false 2 ['a']).closedBy plainToolkit
        [InputEvent.emitEnter, InputEvent.emitKey ['b', 'c'], InputEvent.emitEnter]
      = some InputEvent.emitEnter ∧
    ((InputDialog.getTextDialog ['?'] 0 [] false 2 ['a']).run plainToolkit
        [InputEvent.emitEnter, InputEvent.emitKey ['b', 'c'], InputEvent.emitEnter]).minLength
      = 2 ∧
    (((InputDialog.getTextDialog ['?'] 0 [] false 2 ['a']).run plainToolkit
        [InputEvent.emitEnter, InputEvent.emitKey ['b', 'c'],
          InputEvent.emitEnter]).text.length : Int) ≥ 2 :=
  (accepted_only_with_minLength plainToolkit).1
    (InputDialog.getTextDialog ['?'] 0 [] false 2 ['a'])
    [InputEvent.emitEnter, InputEvent.emitKey ['b', 'c'], InputEvent.emitEnter] (by decide)

/-! ## `ConfirmationDialog` -/

/-- What the event loop of a `ConfirmationDialog` leaves after `evs`. -/
theorem ConfirmationDialog_run_cases {F : Type} (tk : Toolkit F) (d : ConfirmationDialog)
    (evs : List ConfirmationEvent) :
    (d.closedBy tk evs = none ∧ (d.run tk evs).base.visible = true ∧
      ((d.run tk evs).cancel_btn = d.cancel_btn ∧ (d.run tk evs).confirm_btn = d.confirm_btn ∧
        (d.run tk evs).base.parent = d.base.parent ∧
        (d.run tk evs).base.result = Rejected)) ∨
    (∃ e, d.closedBy tk evs = some e ∧ (d.run tk evs).base.visible = false ∧
      ((e = ConfirmationEvent.confirmClicked ∧ d.confirm_btn.isSome = true ∧
          (d.run tk evs).base.result = Accepted) ∨
       (e = ConfirmationEvent.cancelClicked ∧ d.cancel_btn.isSome = true ∧
          (d.run tk evs).base.result = Rejected) ∨
       (∃ ev, e = ConfirmationEvent.filtered d.base.parent ev ∧
          ev.type = QEventType.Hide ∧ (d.run tk evs).base.result = Rejected))) := by
  refine eventLoop_cases (fun s : ConfirmationDialog => s.base.visible)
    (ConfirmationDialog.dispatch tk)
    (fun s => s.cancel_btn = d.cancel_btn ∧ s.confirm_btn = d.confirm_btn ∧
      s.base.parent = d.base.parent ∧ s.base.result = Rejected)
    (fun e s =>
      (e = ConfirmationEvent.confirmClicked ∧ d.confirm_btn.isSome = true ∧
          s.base.result = Accepted) ∨
       (e = ConfirmationEvent.cancelClicked ∧ d.cancel_btn.isSome = true ∧
          s.base.result = Rejected) ∨
       (∃ ev, e = ConfirmationEvent.filtered d.base.parent ev ∧
          ev.type = QEventType.Hide ∧ s.base.result = Rejected))
    ?_ { d with base := d.base.execStart } evs rfl ⟨rfl, rfl, rfl, rfl⟩
  rintro s e hv ⟨hca, hco, hp, hr⟩
  replace hv : s.base.visible = true := hv
  rw [← hca, ← hco, ← hp]
  cases e with
  | cancelClicked =>
    cases hb : s.cancel_btn with
    | none => simp [ConfirmationDialog.dispatch, hb, hr, hv]
    | some b =>
      simp [ConfirmationDialog.dispatch, hb, QDialogBase.reject, QDialogBase.done, Rejected,
        Accepted]
  | confirmClicked =>
    cases hb : s.confirm_btn with
    | none => simp [ConfirmationDialog.dispatch, hb, hr, hv]
    | some b =>
      simp [ConfirmationDialog.dispatch, hb, QDialogBase.accept, QDialogBase.done, Accepted]
  | filtered o ev =>
    by_cases hc : o = s.base.parent ∧ ev.type = QEventType.Hide
    · obtain ⟨ho, ht⟩ := hc
      subst ho
      simp [ConfirmationDialog.dispatch, QDialogBase.eventFilter, ht, QDialogBase.reject,
        QDialogBase.done, Rejected, Accepted]
    · simp [ConfirmationDialog.dispatch, QDialogBase.eventFilter, hc, hr, hv]

theorem ConfirmationDialog_exec_eq {F : Type} (tk : Toolkit F) (d : ConfirmationDialog)
    (evs : List ConfirmationEvent) :
    d.exec tk evs =
      if (d.run tk evs).base.visible then none else some (d.run tk evs).base.result := rfl

theorem ConfirmationDialog_confirm_eq {F : Type} (tk : Toolkit F) (prompt_text : QString)
    (parent : QObject) (evs : List ConfirmationEvent) :
    ConfirmationDialog.confirm tk prompt_text parent evs =
      ((ConfirmationDialog.new prompt_text (tr "Ok") (tr "Cancel") parent).exec tk evs).map
        toBool := rfl

theorem ConfirmationDialog_alert_eq {F : Type} (tk : Toolkit F) (prompt_text : QString)
    (parent : QObject) (evs : List ConfirmationEvent) :
    ConfirmationDialog.alert tk prompt_text parent evs =
      ((ConfirmationDialog.new prompt_text (tr "Ok") [] parent).exec tk evs).map toBool := rfl

/-- C4. `ConfirmationDialog`, for all texts and every course `evs` of the
dialog: a cancel button exists if and only if `cancel_text` is not empty, and
a click on it rejects the dialog; a confirm button exists if and only if
`confirm_text` is not empty, and a click on it accepts the dialog.
`ConfirmationDialog::confirm` returns true exactly when a click on the
confirm button closed the dialog, and false when a click on the cancel
button did. The dialog of `ConfirmationDialog::alert` has no cancel button:
`alert` returns true when a click on the confirm button closed the dialog,
no click on the cancel button closes it, and `alert` returns false only when
the dialog was closed by the event filter, the parent being hidden. -/
theorem confirmation_buttons_accept_and_reject {F : Type} (tk : Toolkit F)
    (prompt_text confirm_text cancel_text : QString) (parent : QObject)
    (evs : List ConfirmationEvent) :
    (((ConfirmationDialog.new prompt_text confirm_text cancel_text parent).cancel_btn.isSome
        = true ↔ cancel_text ≠ []) ∧
     ((ConfirmationDialog.new prompt_text confirm_text cancel_text parent).confirm_btn.isSome
        = true ↔ confirm_text ≠ [])) ∧
    (∀ d : ConfirmationDialog,
      (d.cancel_btn.isSome = true →
        (ConfirmationDialog.dispatch tk d ConfirmationEvent.cancelClicked).base
          = d.base.reject) ∧
      (d.confirm_btn.isSome = true →
        (ConfirmationDialog.dispatch tk d ConfirmationEvent.confirmClicked).base
          = d.base.accept)) ∧
    ((ConfirmationDialog.confirm tk prompt_text parent evs = some true ↔
        (ConfirmationDialog.new prompt_text (tr "Ok") (tr "Cancel") parent).closedBy tk evs
          = some ConfirmationEvent.confirmClicked) ∧
     ((ConfirmationDialog.new prompt_text (tr "Ok") (tr "Cancel") parent).closedBy tk evs
          = some ConfirmationEvent.cancelClicked →
        ConfirmationDialog.confirm tk prompt_text parent evs = some false)) ∧
    ((ConfirmationDialog.new prompt_text (tr "Ok") [] parent).cancel_btn = none ∧
     ((ConfirmationDialog.new prompt_text (tr "Ok") [] parent).closedBy tk evs
          = some ConfirmationEvent.confirmClicked →
        ConfirmationDialog.alert tk prompt_text parent evs = some true) ∧
     (ConfirmationDialog.new prompt_text (tr "Ok") [] parent).closedBy tk evs
          ≠ some ConfirmationEvent.cancelClicked ∧
     (ConfirmationDialog.alert tk prompt_text parent evs = some false →
        ∃ ev, (ConfirmationDialog.new prompt_text (tr "Ok") [] parent).closedBy tk evs
            = some (ConfirmationEvent.filtered parent ev) ∧
          ev.type = QEventType.Hide)) := by
  refine ⟨⟨?_, ?_⟩, ?_, ⟨?_, ?_⟩, ⟨?_, ?_, ?_, ?_⟩⟩
  · cases cancel_text <;> simp [ConfirmationDialog.new]
  · cases confirm_text <;> simp [ConfirmationDialog.new]
  · intro d
    constructor
    · intro hb
      cases hc : d.cancel_btn with
      | none => rw [hc] at hb; cases hb
      | some b => simp [ConfirmationDialog.dispatch, hc]
    · intro hb
      cases hc : d.confirm_btn with
      | none => rw [hc] at hb; cases hb
      | some b => simp [ConfirmationDialog.dispatch, hc]
  · rw [ConfirmationDialog_confirm_eq, ConfirmationDialog_exec_eq]
    rcases ConfirmationDialog_run_cases tk
      (ConfirmationDialog.new prompt_text (tr "Ok") (tr "Cancel") parent) evs with
      ⟨hnone, hv, _⟩ | ⟨e, he, hv, hq⟩
    · simp [hv, hnone]
    · rw [he]
      rcases hq with ⟨hx, _, hr⟩ | ⟨hx, _, hr⟩ | ⟨ev, hx, _, hr⟩ <;>
        subst hx <;> simp [hv, hr, toBool, Accepted, Rejected]
  · intro hc
    rw [ConfirmationDialog_confirm_eq, ConfirmationDialog_exec_eq]
    rcases ConfirmationDialog_run_cases tk
      (ConfirmationDialog.new prompt_text (tr "Ok") (tr "Cancel") parent) evs with
      ⟨hnone, _⟩ | ⟨e, he, hv, hq⟩
    · rw [hnone] at hc; cases hc
    · rw [he] at hc
      cases hc
      rcases hq with ⟨hx, _⟩ | ⟨_, _, hr⟩ | ⟨ev, hx, _⟩
      · cases hx
      · simp [hv, hr, toBool, Rejected]
      · cases hx
  · simp [ConfirmationDialog.new]
  · intro hc
    rw [ConfirmationDialog_alert_eq, ConfirmationDialog_exec_eq]
    rcases ConfirmationDialog_run_cases tk
      (ConfirmationDialog.new prompt_text (tr "Ok") [] parent) evs with
      ⟨hnone, _⟩ | ⟨e, he, hv, hq⟩
    · rw [hnone] at hc; cases hc
    · rw [he] at hc
      cases hc
      rcases hq with ⟨_, _, hr⟩ | ⟨hx, _⟩ | ⟨ev, hx, _⟩
      · simp [hv, hr, toBool, Accepted]
      · cases hx
      · cases hx
  · intro hc
    rcases ConfirmationDialog_run_cases tk
      (ConfirmationDialog.new prompt_text (tr "Ok") [] parent) evs with
      ⟨hnone, _⟩ | ⟨e, he, _, hq⟩
    · rw [hnone] at hc; cases hc
    · rw [he] at hc
      cases hc
      rcases hq with ⟨hx, _⟩ | ⟨_, hb, _⟩ | ⟨ev, hx, _⟩
      · cases hx
      · simp [ConfirmationDialog.new] at hb
      · cases hx
  · intro hal
    rw [ConfirmationDialog_alert_eq, ConfirmationDialog_exec_eq] at hal
    rcases ConfirmationDialog_run_cases tk
      (ConfirmationDialog.new prompt_text (tr "Ok") [] parent) evs with
      ⟨_, hv, _⟩ | ⟨e, he, hv, hq⟩
    · simp [hv] at hal
    · rcases hq with ⟨_, _, hr⟩ | ⟨_, hb, _⟩ | ⟨ev, hx, ht, _⟩
      · simp [hv, hr, toBool, Accepted] at hal
      · simp [ConfirmationDialog.new] at hb
      · subst hx
        exact ⟨ev, he, ht⟩

theorem confirmation_buttons_accept_and_reject_witness :
    ConfirmationDialog.confirm plainToolkit ['?'] 0 [ConfirmationEvent.confirmClicked]
      = some true ∧
    ConfirmationDialog.confirm plainToolkit ['?'] 0 [ConfirmationEvent.cancelClicked]
      = some false ∧
    ConfirmationDialog.alert plainToolkit ['?'] 0
        [ConfirmationEvent.cancelClicked, ConfirmationEvent.confirmClicked] = some true :=
  ⟨(confirmation_buttons_accept_and_reject plainToolkit ['?'] [] [] 0
      [ConfirmationEvent.confirmClicked]).2.2.1.1.mpr (by decide),
   (confirmation_buttons_accept_and_reject plainToolkit ['?'] [] [] 0
      [ConfirmationEvent.cancelClicked]).2.2.1.2 (by decide),
   (confirmation_buttons_accept_and_reject plainToolkit ['?'] [] [] 0
      [ConfirmationEvent.cancelClicked, ConfirmationEvent.confirmClicked]).2.2.2.2.1
      (by decide)⟩

/-! ## `MultiOptionDialog` -/

@[simp]
theorem MultiOptionDialog_toggled_base (d : MultiOptionDialog) (s : QString)
    (checked : Bool) : (d.toggled s checked).base = d.base := by
  cases checked <;>
    simp only [MultiOptionDialog.toggled, if_true, if_false, Bool.false_eq_true] <;>
    split <;> rfl

@[simp]
theorem MultiOptionDialog_toggled_current (d : MultiOptionDialog) (s : QString)
    (checked : Bool) : (d.toggled s checked).current = d.current := by
  cases checked <;>
    simp only [MultiOptionDialog.toggled, if_true, if_false, Bool.false_eq_true] <;>
    split <;> rfl

@[simp]
theorem MultiOptionDialog_toggled_options (d : MultiOptionDialog) (s : QString)
    (checked : Bool) : (d.toggled s checked).options = d.options := by
  cases checked <;>
    simp only [MultiOptionDialog.toggled, if_true, if_false, Bool.false_eq_true] <;>
    split <;> rfl

@[simp]
theorem MultiOptionDialog_toggled_checkedButton (d : MultiOptionDialog) (s : QString)
    (checked : Bool) : (d.toggled s checked).checkedButton = d.checkedButton := by
  cases checked <;>
    simp only [MultiOptionDialog.toggled, if_true, if_false, Bool.false_eq_true] <;>
    split <;> rfl

@[simp]
theorem MultiOptionDialog_toggled_selection (d : MultiOptionDialog) (s : QString)
    (checked : Bool) :
    (d.toggled s checked).selection = if checked then s else d.selection := by
  cases checked <;>
    simp only [MultiOptionDialog.toggled, if_true, if_false, Bool.false_eq_true] <;>
    split <;> simp_all

@[simp]
theorem MultiOptionDialog_toggled_confirmEnabled (d : MultiOptionDialog) (s : QString)
    (checked : Bool) :
    (d.toggled s checked).confirmEnabled =
      decide ((if checked then s else d.selection) ≠ d.current) := by
  cases checked <;>
    simp only [MultiOptionDialog.toggled, if_true, if_false, Bool.false_eq_true] <;>
    split <;> simp_all

theorem MultiOptionDialog_addOption_fields (d : MultiOptionDialog) (s : QString) :
    (d.addOption s).base = d.base ∧
    (d.addOption s).current = d.current ∧ (d.addOption s).options = d.options ++ [s] ∧
    (d.addOption s).selection = d.selection ∧
    ((d.addOption s).checkedButton.isSome = true ↔
      (d.checkedButton.isSome = true ∨ s = d.current)) ∧
    (d.selection = [] →
      (d.addOption s).confirmEnabled =
        if d.checkedButton.isSome = true ∧ s = d.current then decide (d.current ≠ [])
        else d.confirmEnabled) := by
  by_cases hs : s = d.current
  · cases hc : d.checkedButton with
    | none => simp [MultiOptionDialog.addOption, hs, hc]
    | some p =>
      simp only [MultiOptionDialog.addOption, hs, hc, decide_True, if_true]
      refine ⟨by simp, by simp, by simp, by simp, by simp, fun hsel => ?_⟩
      simp [hsel, eq_comm]
  · simp [MultiOptionDialog.addOption, hs]

theorem MultiOptionDialog_foldl_addOption_fields (l : QStringList) (d : MultiOptionDialog) :
    (l.foldl MultiOptionDialog.addOption d).base = d.base ∧
    (l.foldl MultiOptionDialog.addOption d).current = d.current ∧
    (l.foldl MultiOptionDialog.addOption d).options = d.options ++ l ∧
    (l.foldl MultiOptionDialog.addOption d).selection = d.selection := by
  induction l generalizing d with
  | nil => simp
  | cons s rest ih =>
    obtain ⟨h1, h2, h3, h4, _, _⟩ := MultiOptionDialog_addOption_fields d s
    obtain ⟨i1, i2, i3, i4⟩ := ih (d.addOption s)
    simp only [List.foldl_cons]
    refine ⟨i1.trans h1, i2.trans h2, ?_, i4.trans h4⟩
    rw [i3, h3]; simp

theorem MultiOptionDialog_foldl_addOption_confirmEnabled (l : QStringList)
    (d : MultiOptionDialog) (hsel : d.selection = []) :
    (l.foldl MultiOptionDialog.addOption d).confirmEnabled =
      if (d.checkedButton.isSome = true ∧ 1 ≤ l.count d.current) ∨ 2 ≤ l.count d.current
      then decide (d.current ≠ []) else d.confirmEnabled := by
  induction l generalizing d with
  | nil => simp
  | cons s rest ih =>
    obtain ⟨_, h2, _, h4, h5, h6⟩ := MultiOptionDialog_addOption_fields d s
    have ih2 := ih (d.addOption s) (h4.trans hsel)
    simp only [List.foldl_cons]
    rw [ih2, h2, h6 hsel]
    by_cases hs : s = d.current
    · subst hs
      have hcb : (d.addOption d.current).checkedButton.isSome = true := h5.mpr (Or.inr rfl)
      simp only [hcb, true_and, List.count_cons_self, and_true]
      cases hc : d.checkedButton.isSome with
      | true =>
        simp only [true_and, if_true]
        have : (1 ≤ List.count d.current rest + 1) := by omega
        simp [this]
      | false =>
        simp only [Bool.false_eq_true, false_and, false_or, if_false]
        have e1 : (1 ≤ List.count d.current rest ∨ 2 ≤ List.count d.current rest) ↔
            2 ≤ List.count d.current rest + 1 := by omega
        simp only [e1]
    · have hcb : (d.addOption s).checkedButton.isSome = d.checkedButton.isSome := by
        rw [Bool.eq_iff_iff, h5]; simp [hs]
      have hcount : List.count d.current (s :: rest) = List.count d.current rest := by
        rw [List.count_cons]; simp [hs]
      simp [hcb, hcount, hs]


/-- An option occurs at most once in a list of pairwise distinct options. -/
theorem count_le_one_of_nodup (l : QStringList) (c : QString) (h : l.Nodup) :
    l.count c ≤ 1 := by
  induction l with
  | nil => simp
  | cons x xs ih =>
    rw [List.nodup_cons] at h
    rw [List.count_cons]
    by_cases hx : x = c
    · subst hx
      have h0 : List.count x xs = 0 := List.count_eq_zero_of_not_mem h.1
      simp [h0]
    · have h1 := ih h.2
      simpa [hx] using h1

theorem MultiOptionDialog_new_fields (prompt_text : QString) (l : QStringList)
    (current : QString) (parent : QObject) :
    (MultiOptionDialog.new prompt_text l current parent).base = QDialogBase.new parent ∧
    (MultiOptionDialog.new prompt_text l current parent).current = current ∧
    (MultiOptionDialog.new prompt_text l current parent).options = l ∧
    (MultiOptionDialog.new prompt_text l current parent).selection = [] ∧
    ((MultiOptionDialog.new prompt_text l current parent).confirmEnabled = true ↔
      (2 ≤ l.count current ∧ current ≠ [])) := by
  obtain ⟨h1, h2, h3, h4⟩ := MultiOptionDialog_foldl_addOption_fields l
    { base := QDialogBase.new parent, title := prompt_text, current := current, options := [],
      checkedButton := none, confirmEnabled := false, selection := [] }
  have h5 := MultiOptionDialog_foldl_addOption_confirmEnabled l
    { base := QDialogBase.new parent, title := prompt_text, current := current, options := [],
      checkedButton := none, confirmEnabled := false, selection := [] } rfl
  refine ⟨h1, h2, by simpa using h3, h4, ?_⟩
  unfold MultiOptionDialog.new
  rw [h5]
  by_cases hc : 2 ≤ List.count current l <;> simp [hc]

theorem MultiOptionDialog_optionClicked_fields (d : MultiOptionDialog) (i : Nat) :
    (d.optionClicked i).base = d.base ∧ (d.optionClicked i).current = d.current ∧
    (d.optionClicked i).options = d.options ∧
    (d.optionClicked i = d ∨
      ∃ s, d.options.get? i = some s ∧ (d.optionClicked i).selection = s ∧
        ((d.optionClicked i).confirmEnabled = true ↔ s ≠ d.current)) := by
  unfold MultiOptionDialog.optionClicked
  cases hs : d.options.get? i with
  | none => simp
  | some s =>
    by_cases hc : d.checkedButton = some i
    · simp [hc]
    · cases hp : d.checkedButton with
      | none => simp [hp]
      | some p =>
        have hpi : ¬ p = i := fun h => hc (by rw [hp, h])
        simp [hp, hpi]

/-- What the event loop of a `MultiOptionDialog` leaves after `evs`. -/
theorem MultiOptionDialog_run_cases {F : Type} (tk : Toolkit F) (d : MultiOptionDialog)
    (evs : List MultiOptionEvent) :
    (d.closedBy tk evs = none ∧ (d.run tk evs).base.visible = true ∧
      ((d.run tk evs).base.parent = d.base.parent ∧ (d.run tk evs).base.result = Rejected)) ∨
    (∃ e, d.closedBy tk evs = some e ∧ (d.run tk evs).base.visible = false ∧
      ((d.run tk evs).base.parent = d.base.parent ∧
        ((e = MultiOptionEvent.selectClicked ∧ (d.run tk evs).base.result = Accepted ∧
            (d.run tk evs).confirmEnabled = true) ∨
         ((e = MultiOptionEvent.cancelClicked ∨
            ∃ ev, e = MultiOptionEvent.filtered d.base.parent ev ∧
              ev.type = QEventType.Hide) ∧
          (d.run tk evs).base.result = Rejected)))) := by
  refine eventLoop_cases (fun s : MultiOptionDialog => s.base.visible)
    (MultiOptionDialog.dispatch tk)
    (fun s => s.base.parent = d.base.parent ∧ s.base.result = Rejected)
    (fun e s => s.base.parent = d.base.parent ∧
        ((e = MultiOptionEvent.selectClicked ∧ s.base.result = Accepted ∧
            s.confirmEnabled = true) ∨
         ((e = MultiOptionEvent.cancelClicked ∨
            ∃ ev, e = MultiOptionEvent.filtered d.base.parent ev ∧
              ev.type = QEventType.Hide) ∧
          s.base.result = Rejected)))
    ?_ _ evs rfl ⟨rfl, rfl⟩
  rintro s e hv ⟨hp, hr⟩
  replace hv : s.base.visible = true := hv
  rw [← hp]
  cases e with
  | optionClicked i =>
    have hb := (MultiOptionDialog_optionClicked_fields s i).1
    simp [MultiOptionDialog.dispatch, hb, hr, hv]
  | selectClicked =>
    cases he : s.confirmEnabled with
    | true =>
      simp [MultiOptionDialog.dispatch, he, QDialogBase.accept, QDialogBase.done, Accepted]
    | false => simp [MultiOptionDialog.dispatch, he, hr, hv]
  | cancelClicked =>
    simp [MultiOptionDialog.dispatch, QDialogBase.reject, QDialogBase.done, Rejected, Accepted]
  | filtered o ev =>
    by_cases hc : o = s.base.parent ∧ ev.type = QEventType.Hide
    · obtain ⟨ho, ht⟩ := hc
      subst ho
      simp [MultiOptionDialog.dispatch, QDialogBase.eventFilter, ht, QDialogBase.reject,
        QDialogBase.done, Rejected, Accepted]
    · simp [MultiOptionDialog.dispatch, QDialogBase.eventFilter, hc, hr, hv]

/-- While the dialog runs, an enabled Select button goes with a stored
selection that is one of the options and is not `current`. -/
theorem MultiOptionDialog_run_enabled {F : Type} (tk : Toolkit F) (d : MultiOptionDialog)
    (evs : List MultiOptionEvent)
    (h0 : d.confirmEnabled = true → d.selection ∈ d.options ∧ d.selection ≠ d.current) :
    (d.run tk evs).current = d.current ∧ (d.run tk evs).options = d.options ∧
    ((d.run tk evs).confirmEnabled = true →
      (d.run tk evs).selection ∈ d.options ∧ (d.run tk evs).selection ≠ d.current) := by
  refine processEvents_invariant (fun s : MultiOptionDialog => s.base.visible)
    (MultiOptionDialog.dispatch tk)
    (fun s => s.current = d.current ∧ s.options = d.options ∧
      (s.confirmEnabled = true → s.selection ∈ d.options ∧ s.selection ≠ d.current))
    ?_ { d with base := d.base.execStart } ⟨rfl, rfl, h0⟩ evs
  rintro s e _ ⟨hc, ho, hen⟩
  rw [← hc, ← ho] at hen ⊢
  cases e with
  | optionClicked i =>
    obtain ⟨_, h2, h3, h4⟩ := MultiOptionDialog_optionClicked_fields s i
    refine ⟨h2, h3, ?_⟩
    rcases h4 with h4 | ⟨t, ht, hsel, hen2⟩
    · simpa [MultiOptionDialog.dispatch, h4] using hen
    · intro he
      simp only [MultiOptionDialog.dispatch] at he ⊢
      rw [hsel]
      exact ⟨List.get?_mem ht, hen2.mp he⟩
  | selectClicked =>
    cases he : s.confirmEnabled with
    | true => simpa [MultiOptionDialog.dispatch, he] using hen
    | false => simp [MultiOptionDialog.dispatch, he]
  | cancelClicked => simpa [MultiOptionDialog.dispatch] using hen
  | filtered o ev => simpa [MultiOptionDialog.dispatch] using hen

theorem MultiOptionDialog_exec_eq {F : Type} (tk : Toolkit F) (d : MultiOptionDialog)
    (evs : List MultiOptionEvent) :
    d.exec tk evs =
      if (d.run tk evs).base.visible then none
      else some ((d.run tk evs).base.result, d.run tk evs) := rfl

theorem MultiOptionDialog_getSelection_eq {F : Type} (tk : Toolkit F) (prompt_text : QString)
    (l : QStringList) (current : QString) (parent : QObject)
    (evs : List MultiOptionEvent) :
    MultiOptionDialog.getSelection tk prompt_text l current parent evs =
      match (MultiOptionDialog.new prompt_text l current parent).exec tk evs with
      | none => none
      | some (ret, d) => if ret ≠ 0 then some d.selection else some [] := rfl

/-- A click on Cancel always ends `exec()` on a `MultiOptionDialog`. -/
theorem MultiOptionDialog_exec_cancel_isSome {F : Type} (tk : Toolkit F)
    (d : MultiOptionDialog) (evs : List MultiOptionEvent) :
    (d.exec tk (evs ++ [MultiOptionEvent.cancelClicked])).isSome = true := by
  have hrun : (d.run tk (evs ++ [MultiOptionEvent.cancelClicked])).base.visible = false := by
    unfold MultiOptionDialog.run
    rw [processEvents_append]
    cases hv : (processEvents (fun d : MultiOptionDialog => d.base.visible)
        (MultiOptionDialog.dispatch tk) { d with base := d.base.execStart } evs).base.visible with
    | true => simp [hv, MultiOptionDialog.dispatch, QDialogBase.reject, QDialogBase.done]
    | false => simp [hv]
  simp [MultiOptionDialog_exec_eq, hrun]

/-- C5. `MultiOptionDialog::getSelection`, for every option list `l`, every
`current` and every course `evs` of the dialog: `exec()` returns `Accepted`
or `Rejected`, and the function returns the stored selection when the dialog
ends accepted and the empty string when it ends rejected, whichever option
is checked then. A dialog closed by a click on Select gives the stored
selection; one closed by a click on Cancel or by an event of the event
filter (the parent being hidden) gives the empty string; and a click on
Cancel always makes the function return. -/
theorem getSelection_returns_selection_or_empty {F : Type} (tk : Toolkit F)
    (prompt_text : QString) (l : QStringList) (current : QString) (parent : QObject)
    (evs : List MultiOptionEvent) :
    (∀ ret d,
      (MultiOptionDialog.new prompt_text l current parent).exec tk evs = some (ret, d) →
      (ret = Accepted ∨ ret = Rejected) ∧
      (ret = Accepted →
        MultiOptionDialog.getSelection tk prompt_text l current parent evs
          = some d.selection) ∧
      (ret = Rejected →
        MultiOptionDialog.getSelection tk prompt_text l current parent evs = some [])) ∧
    ((MultiOptionDialog.new prompt_text l current parent).closedBy tk evs
        = some MultiOptionEvent.selectClicked →
      MultiOptionDialog.getSelection tk prompt_text l current parent evs
        = some ((MultiOptionDialog.new prompt_text l current parent).run tk evs).selection) ∧
    ((MultiOptionDialog.new prompt_text l current parent).closedBy tk evs
        = some MultiOptionEvent.cancelClicked →
      MultiOptionDialog.getSelection tk prompt_text l current parent evs = some []) ∧
    (∀ o e,
      (MultiOptionDialog.new prompt_text l current parent).closedBy tk evs
        = some (MultiOptionEvent.filtered o e) →
      o = parent ∧ e.type = QEventType.Hide ∧
      MultiOptionDialog.getSelection tk prompt_text l current parent evs = some []) ∧
    (MultiOptionDialog.getSelection tk prompt_text l current parent
      (evs ++ [MultiOptionEvent.cancelClicked])).isSome = true := by
  have hcases := MultiOptionDialog_run_cases tk
    (MultiOptionDialog.new prompt_text l current parent) evs
  have hparent : (MultiOptionDialog.new prompt_text l current parent).base.parent = parent := by
    rw [(MultiOptionDialog_new_fields prompt_text l current parent).1]; rfl
  rw [MultiOptionDialog_getSelection_eq, MultiOptionDialog_getSelection_eq,
    MultiOptionDialog_exec_eq]
  refine ⟨?_, ?_, ?_, ?_, ?_⟩
  · intro ret d h
    rcases hcases with ⟨_, hv, _⟩ | ⟨e, _, hv, _, hq⟩
    · simp [hv] at h
    · simp only [hv, Bool.false_eq_true, if_false, Option.some.injEq, Prod.mk.injEq] at h ⊢
      obtain ⟨h1, h2⟩ := h
      subst h2
      subst h1
      have hres : (((MultiOptionDialog.new prompt_text l current parent).run tk evs).base.result
          = Accepted ∨ ((MultiOptionDialog.new prompt_text l current parent).run tk
            evs).base.result = Rejected) := by
        rcases hq with ⟨_, hr, _⟩ | ⟨_, hr⟩
        · exact Or.inl hr
        · exact Or.inr hr
      refine ⟨hres, fun ha => by simp [ha, Accepted], fun hr => by simp [hr, Rejected]⟩
  · intro hc
    rcases hcases with ⟨hnone, _⟩ | ⟨e, he, hv, _, hq⟩
    · rw [hnone] at hc; cases hc
    · rw [he] at hc
      cases hc
      rcases hq with ⟨_, hr, _⟩ | ⟨hwho, _⟩
      · simp [hv, hr, Accepted]
      · rcases hwho with hx | ⟨ev, hx, _⟩ <;> cases hx
  · intro hc
    rcases hcases with ⟨hnone, _⟩ | ⟨e, he, hv, _, hq⟩
    · rw [hnone] at hc; cases hc
    · rw [he] at hc
      cases hc
      rcases hq with ⟨hne, _⟩ | ⟨_, hr⟩
      · cases hne
      · simp [hv, hr, Rejected]
  · intro o ev hc
    rcases hcases with ⟨hnone, _⟩ | ⟨e, he, hv, _, hq⟩
    · rw [hnone] at hc; cases hc
    · rw [he] at hc
      cases hc
      rcases hq with ⟨hne, _⟩ | ⟨hwho, hr⟩
      · cases hne
      · rcases hwho with hx | ⟨ev', hx, ht⟩
        · cases hx
        · cases hx
          refine ⟨hparent, ht, ?_⟩
          simp [hv, hr, Rejected]
  · have h := MultiOptionDialog_exec_cancel_isSome tk
      (MultiOptionDialog.new prompt_text l current parent) evs
    cases hex : (MultiOptionDialog.new prompt_text l current parent).exec tk
        (evs ++ [MultiOptionEvent.cancelClicked]) with
    | none => simp [hex] at h
    | some p =>
      obtain ⟨ret, d⟩ := p
      by_cases hret : ret ≠ 0 <;> simp [hret]

theorem getSelection_returns_selection_or_empty_witness :
    MultiOptionDialog.getSelection plainToolkit ['p'] [['a'], ['b']] ['a'] 0
        [MultiOptionEvent.optionClicked 1, MultiOptionEvent.selectClicked] = some ['b'] ∧
    MultiOptionDialog.getSelection plainToolkit ['p'] [['a'], ['b']] ['a'] 0
        [MultiOptionEvent.optionClicked 1, MultiOptionEvent.cancelClicked] = some [] ∧
    MultiOptionDialog.getSelection plainToolkit ['p'] [['a'], ['b']] ['a'] 0
        [MultiOptionEvent.selectClicked, MultiOptionEvent.optionClicked 1,
          MultiOptionEvent.filtered 0 { type := QEventType.Hide }] = some [] :=
  ⟨((getSelection_returns_selection_or_empty plainToolkit ['p'] [['a'], ['b']] ['a'] 0
        [MultiOptionEvent.optionClicked 1, MultiOptionEvent.selectClicked]).2.1
        (by decide)).trans rfl,
   (getSelection_returns_selection_or_empty plainToolkit ['p'] [['a'], ['b']] ['a'] 0
        [MultiOptionEvent.optionClicked 1, MultiOptionEvent.cancelClicked]).2.2.1 (by decide),
   ((getSelection_returns_selection_or_empty plainToolkit ['p'] [['a'], ['b']] ['a'] 0
        [MultiOptionEvent.selectClicked, MultiOptionEvent.optionClicked 1,
          MultiOptionEvent.filtered 0 { type := QEventType.Hide }]).2.2.2.1
        0 { type := QEventType.Hide } (by decide)).2.2⟩

/-- C7, first sentence as the claim has it, refuted: with the option list
`a, a` and current value `a` the second option button, added checked to the
exclusive group, unchecks the first, whose slot then enables the Select
button, so the dialog is constructed with the Select button enabled. -/
theorem select_enabled_at_construction_with_repeated_current :
    (MultiOptionDialog.new ['p'] [['a'], ['a']] ['a'] 0).confirmEnabled = true ∧
    (MultiOptionDialog.new ['p'] [['a'], ['a']] ['a'] 0).selection = [] := by
  decide

/-- C7, amended. When `current` occurs at most once in the option list, or
is empty, the Select button is disabled when the dialog is constructed.
After every `toggled` event of an option button, checked or unchecked, the
Select button is enabled if and only if the stored selection differs from
`current`, and the stored selection is the text of the button if the event
is `toggled(true)` and unchanged otherwise. No event of the dialog changes
the stored selection except a click on an option button, which stores the
text of the button clicked; and after a click that toggles anything the
Select button is enabled if and only if the stored selection differs from
`current`. -/
theorem select_enabled_iff_selection_differs (prompt_text : QString) (l : QStringList)
    (current : QString) (parent : QObject) (h : l.count current ≤ 1 ∨ current = []) :
    (MultiOptionDialog.new prompt_text l current parent).confirmEnabled = false ∧
    (∀ (d : MultiOptionDialog) (s : QString) (checked : Bool),
      ((d.toggled s checked).confirmEnabled = true ↔
        (d.toggled s checked).selection ≠ d.current) ∧
      (d.toggled s checked).current = d.current ∧
      (d.toggled s checked).selection = (if checked then s else d.selection)) ∧
    (∀ (F : Type) (tk : Toolkit F) (d : MultiOptionDialog) (ev : MultiOptionEvent),
      (MultiOptionDialog.dispatch tk d ev).selection = d.selection ∨
      ∃ i s, ev = MultiOptionEvent.optionClicked i ∧ d.options.get? i = some s ∧
        (MultiOptionDialog.dispatch tk d ev).selection = s) ∧
    (∀ (d : MultiOptionDialog) (i : Nat), d.optionClicked i ≠ d →
      ((d.optionClicked i).confirmEnabled = true ↔
        (d.optionClicked i).selection ≠ d.current)) := by
  refine ⟨?_, ?_, ?_, ?_⟩
  · have hnew := (MultiOptionDialog_new_fields prompt_text l current parent).2.2.2.2
    cases hen : (MultiOptionDialog.new prompt_text l current parent).confirmEnabled with
    | false => rfl
    | true =>
      obtain ⟨h2, hne⟩ := hnew.mp hen
      rcases h with h | h
      · omega
      · exact absurd h hne
  · intro d s checked
    simp
  · intro F tk d ev
    cases ev with
    | optionClicked i =>
      rcases (MultiOptionDialog_optionClicked_fields d i).2.2.2 with h4 | ⟨s, hs, hsel, _⟩
      · left; simp [MultiOptionDialog.dispatch, h4]
      · right; exact ⟨i, s, rfl, hs, hsel⟩
    | selectClicked =>
      left
      cases he : d.confirmEnabled <;> simp [MultiOptionDialog.dispatch, he]
    | cancelClicked => left; simp [MultiOptionDialog.dispatch]
    | filtered o e => left; simp [MultiOptionDialog.dispatch]
  · intro d i hne
    rcases (MultiOptionDialog_optionClicked_fields d i).2.2.2 with h4 | ⟨s, _, hsel, hen⟩
    · exact absurd h4 hne
    · rw [hsel]; exact hen

theorem select_enabled_iff_selection_differs_witness :
    (MultiOptionDialog.new ['p'] [['a'], ['b']] ['a'] 0).confirmEnabled = false :=
  (select_enabled_iff_selection_differs ['p'] [['a'], ['b']] ['a'] 0
    (Or.inl (by decide))).1

/-- C8. `MultiOptionDialog::getSelection`, for every list `l` of pairwise
distinct options, every `current` and every course `evs` of the dialog, the
option buttons being one exclusive group: if the dialog ends accepted, it was
closed by a click on the Select button while that was enabled, and the
string returned is the stored selection, is an element of `l` and is
different from `current`. -/
theorem accepted_selection_is_new_option {F : Type} (tk : Toolkit F) (prompt_text : QString)
    (l : QStringList) (current : QString) (parent : QObject) (evs : List MultiOptionEvent)
    (hl : l.Nodup)
    (hacc : ((MultiOptionDialog.new prompt_text l current parent).run tk evs).base.result
      = Accepted) :
    (MultiOptionDialog.new prompt_text l current parent).closedBy tk evs
      = some MultiOptionEvent.selectClicked ∧
    ((MultiOptionDialog.new prompt_text l current parent).run tk evs).confirmEnabled = true ∧
    (∃ r, MultiOptionDialog.getSelection tk prompt_text l current parent evs = some r ∧
      r = ((MultiOptionDialog.new prompt_text l current parent).run tk evs).selection ∧
      r ∈ l ∧ r ≠ current) := by
  obtain ⟨_, hcur, hopt, _, hen⟩ := MultiOptionDialog_new_fields prompt_text l current parent
  have hcount : ¬ 2 ≤ l.count current := by
    have := count_le_one_of_nodup l current hl
    omega
  have h0 : (MultiOptionDialog.new prompt_text l current parent).confirmEnabled = true →
      (MultiOptionDialog.new prompt_text l current parent).selection ∈
        (MultiOptionDialog.new prompt_text l current parent).options ∧
      (MultiOptionDialog.new prompt_text l current parent).selection ≠
        (MultiOptionDialog.new prompt_text l current parent).current :=
    fun he => absurd (hen.mp he).1 hcount
  obtain ⟨_, _, hinv⟩ := MultiOptionDialog_run_enabled tk
    (MultiOptionDialog.new prompt_text l current parent) evs h0
  rw [hcur, hopt] at hinv
  rcases MultiOptionDialog_run_cases tk (MultiOptionDialog.new prompt_text l current parent)
    evs with ⟨_, _, _, hr⟩ | ⟨e, he, hv, _, hq⟩
  · rw [hr] at hacc; cases hacc
  · rcases hq with ⟨hsel, _, henabled⟩ | ⟨_, hr⟩
    · subst hsel
      refine ⟨he, henabled, _, ?_, rfl, hinv henabled⟩
      rw [MultiOptionDialog_getSelection_eq, MultiOptionDialog_exec_eq]
      simp [hv, hacc, Accepted]
    · rw [hr] at hacc; cases hacc

theorem accepted_selection_is_new_option_witness :
    (MultiOptionDialog.new ['p'] [['a'], ['b']] ['a'] 0).closedBy plainToolkit
        [MultiOptionEvent.optionClicked 1, MultiOptionEvent.selectClicked]
      = some MultiOptionEvent.selectClicked ∧
    ((MultiOptionDialog.new ['p'] [['a'], ['b']] ['a'] 0).run plainToolkit
        [MultiOptionEvent.optionClicked 1, MultiOptionEvent.selectClicked]).confirmEnabled
      = true ∧
    (∃ r, MultiOptionDialog.getSelection plainToolkit ['p'] [['a'], ['b']] ['a'] 0
        [MultiOptionEvent.optionClicked 1, MultiOptionEvent.selectClicked] = some r ∧
      r = ((MultiOptionDialog.new ['p'] [['a'], ['b']] ['a'] 0).run plainToolkit
        [MultiOptionEvent.optionClicked 1, MultiOptionEvent.selectClicked]).selection ∧
      r ∈ [['a'], ['b']] ∧ r ≠ ['a']) :=
  accepted_selection_is_new_option plainToolkit ['p'] [['a'], ['b']] ['a'] 0
    [MultiOptionEvent.optionClicked 1, MultiOptionEvent.selectClicked]
    (by decide) (by decide)

end InputCc
